import Mathlib

/-!
Verification development for the LinkedIn-Ads-Agent repository.

This file shallowly embeds the snapshot assembly and persistence pipeline:
  * `storage/repository.py` (upserts, freshness gate),
  * `services/snapshot.py` / `storage/snapshot.py` (validation, aggregation,
    URN resolution, top-N demographics, snapshot assembly),
  * `utils/urn_resolve.py` (static URN lookup tables),
and proves the spec-level properties about them.

Modelling conventions:
  * Python dicts with fixed shapes become structures; optional keys become
    `Option` fields; `dict.get(k, default)` becomes `Option.getD`.
  * SQLite tables become association lists of typed rows kept in insertion
    order; `insert().on_conflict_do_update(...)` becomes `upsertRow`, which
    replaces the row with the same natural key in place or appends it.
  * Python `float` becomes `ℚ`; `round(x, n)` (round-half-to-even) becomes
    `roundTo n` over `ℚ` (double imprecision is not modelled).
  * Timestamps handed out by `datetime.now(...)` are explicit parameters
    (`now : String` for stored ISO strings, `Int` minutes for the
    freshness-gate arithmetic).
-/

set_option maxHeartbeats 1600000

namespace LinkedInAds

/-! ### Generic keyed-store theory

`upsertRow keyOf merge row t` models one SQLAlchemy
`insert().on_conflict_do_update(index_elements = key, set_ = ...)` against a
table `t`: if a row with the same natural key exists it is replaced in place
by `merge old row` (for plain upserts `merge old row = row`; the creatives
upsert keeps `created_at` from the old row), otherwise `row` is appended. -/

def findByKey {κ ρ : Type} [DecidableEq κ] (keyOf : ρ → κ) (k : κ) : List ρ → Option ρ
  | [] => none
  | r :: rest => if keyOf r = k then some r else findByKey keyOf k rest

def upsertRow {κ ρ : Type} [DecidableEq κ] (keyOf : ρ → κ) (merge : ρ → ρ → ρ)
    (row : ρ) : List ρ → List ρ
  | [] => [row]
  | r :: rest =>
    if keyOf r = keyOf row then merge r row :: rest
    else r :: upsertRow keyOf merge row rest

def applyUpserts {κ ρ : Type} [DecidableEq κ] (keyOf : ρ → κ) (merge : ρ → ρ → ρ)
    (ops : List ρ) (t : List ρ) : List ρ :=
  ops.foldl (fun acc row => upsertRow keyOf merge row acc) t

/-- The pointwise effect of a sequence of upserts at one key: fold the merge
function over the ops that hit the key, starting from the old stored value. -/
def mergeRun {ρ : Type} (merge : ρ → ρ → ρ) : Option ρ → List ρ → Option ρ
  | old, [] => old
  | old, r :: rest =>
    mergeRun merge (some (old.elim r (fun o => merge o r))) rest

/-- Plain upsert: every non-key column is overwritten by the incoming row. -/
def mergeReplace {ρ : Type} : ρ → ρ → ρ := fun _ r => r

/-! ### Database rows (models/db_models.py restricted to the columns the
upsert helpers in storage/repository.py actually write) -/

structure AccountRow where
  id : Int
  name : String
  status : String
  currency : Option String
  type : Option String
  is_test : Bool
  fetched_at : String
deriving DecidableEq

structure CampaignRow where
  id : Int
  account_id : Int
  name : String
  status : String
  type : Option String
  daily_budget : ℚ
  daily_budget_currency : Option String
  total_budget : ℚ
  cost_type : Option String
  unit_cost : ℚ
  bid_strategy : Option String
  creative_selection : Option String
  offsite_delivery_enabled : Bool
  audience_expansion_enabled : Bool
  campaign_group : Option String
  fetched_at : String
deriving DecidableEq

structure CampaignDailyRow where
  campaign_id : Int
  date : String
  impressions : Int
  clicks : Int
  spend : ℚ
  landing_page_clicks : Int
  conversions : Int
  likes : Int
  comments : Int
  shares : Int
  ctr : ℚ
  cpc : ℚ
  fetched_at : String
deriving DecidableEq

structure CreativeRow where
  id : String
  campaign_id : Int
  account_id : Int
  intended_status : Option String
  is_serving : Bool
  content_reference : Option String
  created_at : Option Int
  last_modified_at : Option Int
  fetched_at : String
deriving DecidableEq

/-- Rows of `creative_daily_metrics` (models/db_models.py defines the table;
`persist_snapshot` never writes to it). -/
structure CreativeDailyRow where
  creative_id : String
  date : String
  impressions : Int
  clicks : Int
  spend : ℚ
  landing_page_clicks : Int
  conversions : Int
  likes : Int
  comments : Int
  shares : Int
  ctr : ℚ
  cpc : ℚ
  fetched_at : String
deriving DecidableEq

structure DemographicRow where
  account_id : Int
  pivot_type : String
  segment : String
  impressions : Int
  clicks : Int
  ctr : ℚ
  share_pct : ℚ
  date_start : String
  date_end : String
  fetched_at : String
deriving DecidableEq

structure SyncLogRow where
  id : Int
  account_id : String
  started_at : String
  finished_at : Option String
  status : String
  trigger : Option String
deriving DecidableEq

structure Database where
  ad_accounts : List AccountRow
  campaigns : List CampaignRow
  campaign_daily_metrics : List CampaignDailyRow
  creatives : List CreativeRow
  creative_daily_metrics : List CreativeDailyRow
  audience_demographics : List DemographicRow
  sync_log : List SyncLogRow
deriving DecidableEq

def emptyDB : Database := ⟨[], [], [], [], [], [], []⟩

/-! ### Snapshot dict as consumed by `persist_snapshot`

These structures model the nested dict an assembled snapshot passes into
`persist_snapshot` with the keys that function reads.  Required dict accesses
(`acct["id"]`, `camp["name"]`, `day["date"]`, ...) become non-Option fields;
`dict.get` accesses stay `Option` / defaulted. -/

structure SegSnap where
  segment : String
  segment_urn : String
  impressions : Int
  clicks : Int
  ctr : ℚ
  share_of_impressions : ℚ
deriving DecidableEq

structure DailySnap where
  date : String
  impressions : Int
  clicks : Int
  spend : ℚ
  landing_page_clicks : Int
  conversions : Int
  likes : Int
  comments : Int
  shares : Int
  follows : Int
  leads : Int
  opens : Int
  sends : Int
  ctr : ℚ
  cpc : ℚ
deriving DecidableEq

structure CreativeSnap where
  id : String
  intended_status : Option String
  is_serving : Bool
  serving_hold_reasons : List String
  content_reference : Option String
  created_at : Option Int
  last_modified_at : Option Int
  daily_metrics : List DailySnap
deriving DecidableEq

structure PSettings where
  daily_budget : Option ℚ
  daily_budget_currency : Option String
  total_budget : Option ℚ
  cost_type : Option String
  unit_cost : Option ℚ
  bid_strategy : Option String
  creative_selection : Option String
  offsite_delivery_enabled : Bool
  audience_expansion_enabled : Bool
  campaign_group : Option String
deriving DecidableEq

structure PCampaign where
  id : Int
  name : String
  status : String
  type : Option String
  settings : PSettings
  daily_metrics : List DailySnap
  creatives : List CreativeSnap
deriving DecidableEq

structure PAccount where
  id : Int
  name : String
  status : String
  currency : Option String
  type : Option String
  test : Bool
  campaigns : List PCampaign
  audience_demographics : List (String × List SegSnap)
deriving DecidableEq

structure DateRangeSnap where
  start : String
  stop : String
  days : Int
deriving DecidableEq

structure PSnapshot where
  accounts : List PAccount
  date_range : DateRangeSnap
deriving DecidableEq

/-! ### Row builders: the `values` dicts of the `_upsert_*` helpers -/

def accountRowOf (acct : PAccount) (now : String) : AccountRow :=
  { id := acct.id, name := acct.name, status := acct.status,
    currency := acct.currency, type := acct.type, is_test := acct.test,
    fetched_at := now }

def campaignRowOf (account_id : Int) (camp : PCampaign) (now : String) : CampaignRow :=
  { id := camp.id, account_id := account_id, name := camp.name,
    status := camp.status, type := camp.type,
    daily_budget := camp.settings.daily_budget.getD 0,
    daily_budget_currency := camp.settings.daily_budget_currency,
    total_budget := camp.settings.total_budget.getD 0,
    cost_type := camp.settings.cost_type,
    unit_cost := camp.settings.unit_cost.getD 0,
    bid_strategy := camp.settings.bid_strategy,
    creative_selection := camp.settings.creative_selection,
    offsite_delivery_enabled := camp.settings.offsite_delivery_enabled,
    audience_expansion_enabled := camp.settings.audience_expansion_enabled,
    campaign_group := camp.settings.campaign_group,
    fetched_at := now }

def campaignDailyRowOf (campaign_id : Int) (day : DailySnap) (now : String) :
    CampaignDailyRow :=
  { campaign_id := campaign_id, date := day.date,
    impressions := day.impressions, clicks := day.clicks, spend := day.spend,
    landing_page_clicks := day.landing_page_clicks,
    conversions := day.conversions, likes := day.likes,
    comments := day.comments, shares := day.shares,
    ctr := day.ctr, cpc := day.cpc, fetched_at := now }

def creativeRowOf (account_id campaign_id : Int) (cr : CreativeSnap) (now : String) :
    CreativeRow :=
  { id := cr.id, campaign_id := campaign_id, account_id := account_id,
    intended_status := cr.intended_status, is_serving := cr.is_serving,
    content_reference := cr.content_reference, created_at := cr.created_at,
    last_modified_at := cr.last_modified_at, fetched_at := now }

def demographicRowOf (account_id : Int) (pivot_type : String) (seg : SegSnap)
    (dr : DateRangeSnap) (now : String) : DemographicRow :=
  { account_id := account_id, pivot_type := pivot_type, segment := seg.segment,
    impressions := seg.impressions, clicks := seg.clicks, ctr := seg.ctr,
    share_pct := seg.share_of_impressions,
    date_start := dr.start, date_end := dr.stop, fetched_at := now }

/-- The creatives upsert updates every column except `id` and `created_at`,
so on conflict the stored `created_at` survives. -/
def mergeCreative (old new : CreativeRow) : CreativeRow :=
  { new with created_at := old.created_at }

/-! ### persist_snapshot

The Python loop interleaves upserts across tables (account, then its
campaigns, their daily rows and creatives, then demographics, next account,
...).  Each upsert touches exactly one table, so the final state only depends
on the per-table subsequences of upserts, which the op lists below reproduce
in the code's order. -/

def accountOps (s : PSnapshot) (now : String) : List AccountRow :=
  s.accounts.map (fun a => accountRowOf a now)

def campaignOps (s : PSnapshot) (now : String) : List CampaignRow :=
  s.accounts.flatMap (fun a => a.campaigns.map (fun c => campaignRowOf a.id c now))

def campaignDailyOps (s : PSnapshot) (now : String) : List CampaignDailyRow :=
  s.accounts.flatMap (fun a =>
    a.campaigns.flatMap (fun c =>
      c.daily_metrics.map (fun d => campaignDailyRowOf c.id d now)))

def creativeOps (s : PSnapshot) (now : String) : List CreativeRow :=
  s.accounts.flatMap (fun a =>
    a.campaigns.flatMap (fun c =>
      c.creatives.map (fun cr => creativeRowOf a.id c.id cr now)))

def demographicOps (s : PSnapshot) (now : String) : List DemographicRow :=
  s.accounts.flatMap (fun a =>
    a.audience_demographics.flatMap (fun pv =>
      pv.2.map (fun seg => demographicRowOf a.id pv.1 seg s.date_range now)))

def acctKey : AccountRow → Int := AccountRow.id

def campKey : CampaignRow → Int := CampaignRow.id

def campDailyKey : CampaignDailyRow → Int × String := fun r => (r.campaign_id, r.date)

def creativeKey : CreativeRow → String := CreativeRow.id

def demoKey : DemographicRow → Int × String × String × String := fun r =>
  (r.account_id, r.pivot_type, r.segment, r.date_start)

/-- storage/repository.py `persist_snapshot`: walk the snapshot and upsert
accounts, campaigns, campaign daily metrics, creatives and demographics.
No upsert ever targets `creative_daily_metrics` or `sync_log`. -/
def persistSnapshot (s : PSnapshot) (now : String) (db : Database) : Database :=
  { db with
    ad_accounts := applyUpserts acctKey mergeReplace (accountOps s now) db.ad_accounts,
    campaigns := applyUpserts campKey mergeReplace (campaignOps s now) db.campaigns,
    campaign_daily_metrics :=
      applyUpserts campDailyKey mergeReplace (campaignDailyOps s now) db.campaign_daily_metrics,
    creatives := applyUpserts creativeKey mergeCreative (creativeOps s now) db.creatives,
    audience_demographics :=
      applyUpserts demoKey mergeReplace (demographicOps s now) db.audience_demographics }

/-! ### Freshness gate (storage/repository.py `should_sync`)

`sync_log` rows as the gate reads them: it selects `finished_at` of rows
with matching `account_id` and `status = 'success'`, ordered descending, and
compares elapsed minutes against the TTL.  Timestamps are modelled as `Int`
minutes on a common clock; `now` is the current time.  The SQL
`ORDER BY finished_at DESC LIMIT 1` is the maximum `finished_at`. -/

structure SyncEntry where
  account_id : String
  status : String
  finished_at : Int
deriving DecidableEq

def lastSuccessFinishedAt (entries : List SyncEntry) (account_id : String) : Option Int :=
  ((entries.filter (fun e => e.account_id = account_id && e.status = "success")).map
    (fun e => e.finished_at)).max?

def staleReason (elapsed ttl : Int) : String :=
  "last sync " ++ toString elapsed ++ "m ago (ttl=" ++ toString ttl ++ "m)"

def freshReason (elapsed ttl : Int) : String :=
  "fresh (" ++ toString elapsed ++ "m ago, ttl=" ++ toString ttl ++ "m)"

/-- Default of `settings.freshness_ttl_minutes` / `FRESHNESS_TTL_MINUTES`. -/
def defaultFreshnessTtl : Int := 240

def shouldSync (entries : List SyncEntry) (account_id : String) (force : Bool)
    (ttl now : Int) : Bool × String :=
  if force then (true, "force=True")
  else
    match lastSuccessFinishedAt entries account_id with
    | none => (true, "no previous successful sync")
    | some f =>
      let elapsed := now - f
      if ttl ≤ elapsed then (true, staleReason elapsed ttl)
      else (false, freshReason elapsed ttl)

/-- `pat` occurs as a contiguous substring of `s`. -/
def strHasSub (pat s : String) : Prop := pat.toList <:+: s.toList

instance (pat s : String) : Decidable (strHasSub pat s) :=
  List.decidableInfix pat.toList s.toList

/-! ### Cost coercion and rounding

`float(r.get("costInLocalCurrency", "0") or "0")`: the cost field can arrive
absent, `None`, a string or a number; falsy values (`None`, `""`, `0`) fall
back to `"0"`.  `CostVal` is the sum of those shapes.  `parseDecimal` covers
plain signed decimal literals, which is what the API sends; Python `float`
would raise on other strings, and validation (which runs the same parse)
drops such rows before any aggregation. -/

inductive CostVal where
  | absent
  | null
  | str (s : String)
  | num (q : ℚ)
deriving DecidableEq

def digitVal (c : Char) : Option Nat :=
  if c.isDigit then some (c.toNat - 48) else none

def parseNatDigits (cs : List Char) : Option Nat :=
  match cs with
  | [] => none
  | _ =>
    cs.foldl
      (fun acc c =>
        match acc, digitVal c with
        | some a, some d => some (a * 10 + d)
        | _, _ => none)
      (some 0)

/-- Parse a signed fixed-point decimal literal into (mantissa, decimal places). -/
def parseFixed (cs : List Char) : Option (Int × Nat) :=
  let signed : Int × List Char :=
    match cs with
    | '-' :: rest => (-1, rest)
    | '+' :: rest => (1, rest)
    | _ => (1, cs)
  let sgn := signed.1
  let body := signed.2
  let ip := body.takeWhile (fun c => c ≠ '.')
  match body.dropWhile (fun c => c ≠ '.') with
  | [] => (parseNatDigits ip).map (fun n => (sgn * n, 0))
  | _ :: frac =>
    if frac.contains '.' then none
    else if ip = [] && frac = [] then none
    else
      match (if ip = [] then some 0 else parseNatDigits ip),
            (if frac = [] then some 0 else parseNatDigits frac) with
      | some i, some f => some (sgn * (i * 10 ^ frac.length + f), frac.length)
      | _, _ => none

def parseDecimal (s : String) : Option (Int × Nat) := parseFixed s.toList

def fixedToRat (p : Int × Nat) : ℚ := (p.1 : ℚ) / 10 ^ p.2

def costToRat : CostVal → ℚ
  | .absent => 0
  | .null => 0
  | .str s => if s = "" then 0 else ((parseDecimal s).map fixedToRat).getD 0
  | .num q => q

/-- Python 3 `round` to integer: round half to even. -/
def rhe (q : ℚ) : ℤ :=
  if q - ⌊q⌋ < 1 / 2 then ⌊q⌋
  else if 1 / 2 < q - ⌊q⌋ then ⌊q⌋ + 1
  else if 2 ∣ ⌊q⌋ then ⌊q⌋ else ⌊q⌋ + 1

/-- Python `round(q, d)`. -/
def roundTo (d : ℕ) (q : ℚ) : ℚ := (rhe (q * 10 ^ d) : ℚ) / 10 ^ d

/-! ### Raw analytics rows and the metric aggregator
(services/snapshot.py `_aggregate_metrics`, `_daily_time_series`)

Counter fields model `r.get(field, 0)`: an absent key behaves as 0, so the
raw dict is embedded with the counters already defaulted. -/

structure DateTriple where
  year : Int
  month : Int
  day : Int
deriving DecidableEq

structure RawDateRange where
  start : Option DateTriple
  stop : Option DateTriple
deriving DecidableEq

structure MetricRow where
  pivotValues : List String
  dateRange : Option RawDateRange
  impressions : Int
  clicks : Int
  cost : CostVal
  landingPageClicks : Int
  externalWebsiteConversions : Int
  likes : Int
  comments : Int
  shares : Int
  follows : Int
  oneClickLeads : Int
  opens : Int
  sends : Int
deriving DecidableEq

structure AggSums where
  impressions : Int
  clicks : Int
  spend : ℚ
  landing_page_clicks : Int
  conversions : Int
  likes : Int
  comments : Int
  shares : Int
  follows : Int
  leads : Int
  opens : Int
  sends : Int
deriving DecidableEq

def zeroSums : AggSums := ⟨0, 0, 0, 0, 0, 0, 0, 0, 0, 0, 0, 0⟩

def addRow (a : AggSums) (r : MetricRow) : AggSums :=
  { impressions := a.impressions + r.impressions,
    clicks := a.clicks + r.clicks,
    spend := a.spend + costToRat r.cost,
    landing_page_clicks := a.landing_page_clicks + r.landingPageClicks,
    conversions := a.conversions + r.externalWebsiteConversions,
    likes := a.likes + r.likes,
    comments := a.comments + r.comments,
    shares := a.shares + r.shares,
    follows := a.follows + r.follows,
    leads := a.leads + r.oneClickLeads,
    opens := a.opens + r.opens,
    sends := a.sends + r.sends }

def sumRows (rows : List MetricRow) : AggSums := rows.foldl addRow zeroSums

structure AggResult where
  impressions : Int
  clicks : Int
  spend : ℚ
  landing_page_clicks : Int
  conversions : Int
  likes : Int
  comments : Int
  shares : Int
  follows : Int
  leads : Int
  opens : Int
  sends : Int
  ctr : ℚ
  cpc : ℚ
  cpm : ℚ
  cpl : ℚ
deriving DecidableEq

/-- `_aggregate_metrics`: sum the 12 counters over all rows, then compute the
derived ratios from the sums, with the zero guards of the source
(`if imp`, `if clk`, `if conv` — truthiness, i.e. nonzero). -/
def aggregateMetrics (rows : List MetricRow) : AggResult :=
  let a := sumRows rows
  { impressions := a.impressions, clicks := a.clicks,
    landing_page_clicks := a.landing_page_clicks, conversions := a.conversions,
    likes := a.likes, comments := a.comments, shares := a.shares,
    follows := a.follows, leads := a.leads, opens := a.opens, sends := a.sends,
    ctr := if a.impressions = 0 then 0
           else roundTo 4 ((a.clicks : ℚ) / (a.impressions : ℚ) * 100),
    cpc := if a.clicks = 0 then 0 else roundTo 2 (a.spend / (a.clicks : ℚ)),
    cpm := if a.impressions = 0 then 0
           else roundTo 2 (a.spend / (a.impressions : ℚ) * 1000),
    cpl := if a.conversions = 0 then 0
           else roundTo 2 (a.spend / (a.conversions : ℚ)),
    spend := roundTo 2 a.spend }

/-! ### Stable sorting

Python `sorted` is stable; `sorted(rows, key=k, reverse=True)` keeps the
original relative order of rows with equal keys.  `stableSortBy before`
is insertion sort where `before a b` means "a must be placed strictly before
b"; an inserted element goes after every earlier element it is not strictly
before, which is exactly stable sorting for a strict order `before`. -/

def stableInsertBy {α : Type} (before : α → α → Bool) (r : α) : List α → List α
  | [] => [r]
  | x :: xs => if before r x then r :: x :: xs else x :: stableInsertBy before r xs

def stableSortBy {α : Type} (before : α → α → Bool) (l : List α) : List α :=
  l.foldl (fun acc r => stableInsertBy before r acc) []

/-! ### Daily time series (`_daily_time_series`) -/

def pad2 (n : Int) : String :=
  if 0 ≤ n ∧ n < 10 then "0" ++ toString n else toString n

def dateKeyOf (r : MetricRow) : String :=
  let t := (r.dateRange.bind (fun dr => dr.start)).getD ⟨0, 0, 0⟩
  toString t.year ++ "-" ++ pad2 t.month ++ "-" ++ pad2 t.day

structure DayBucket where
  date : String
  impressions : Int
  clicks : Int
  spend : ℚ
  landing_page_clicks : Int
  conversions : Int
  likes : Int
  comments : Int
  shares : Int
  follows : Int
  leads : Int
  opens : Int
  sends : Int
deriving DecidableEq

def bucketInit (d : String) : DayBucket := ⟨d, 0, 0, 0, 0, 0, 0, 0, 0, 0, 0, 0, 0⟩

def bucketAdd (b : DayBucket) (r : MetricRow) : DayBucket :=
  { b with
    impressions := b.impressions + r.impressions,
    clicks := b.clicks + r.clicks,
    spend := b.spend + costToRat r.cost,
    landing_page_clicks := b.landing_page_clicks + r.landingPageClicks,
    conversions := b.conversions + r.externalWebsiteConversions,
    likes := b.likes + r.likes,
    comments := b.comments + r.comments,
    shares := b.shares + r.shares,
    follows := b.follows + r.follows,
    leads := b.leads + r.oneClickLeads,
    opens := b.opens + r.opens,
    sends := b.sends + r.sends }

/-- Group rows into per-date buckets preserving dict insertion order. -/
def bumpBucket (m : List DayBucket) (r : MetricRow) : List DayBucket :=
  let k := dateKeyOf r
  if m.any (fun b => b.date = k) then
    m.map (fun b => if b.date = k then bucketAdd b r else b)
  else m ++ [bucketAdd (bucketInit k) r]

/-- `_daily_time_series`: bucket by date, sort ascending by the date string,
round spend, then derive `ctr`/`cpc` per bucket.  Note the source computes
the daily `cpc` from the already-rounded spend. -/
def dailyTimeSeries (rows : List MetricRow) : List DailySnap :=
  let buckets := rows.foldl bumpBucket []
  let sorted := stableSortBy (fun a b => decide (a.date < b.date)) buckets
  sorted.map (fun b : DayBucket =>
    let spend2 := roundTo 2 b.spend
    { date := b.date, impressions := b.impressions, clicks := b.clicks,
      spend := spend2,
      landing_page_clicks := b.landing_page_clicks,
      conversions := b.conversions, likes := b.likes, comments := b.comments,
      shares := b.shares, follows := b.follows, leads := b.leads,
      opens := b.opens, sends := b.sends,
      ctr := if b.impressions = 0 then 0
             else roundTo 4 ((b.clicks : ℚ) / (b.impressions : ℚ) * 100),
      cpc := if b.clicks = 0 then 0 else roundTo 2 (spend2 / (b.clicks : ℚ)) })

/-! ### URN resolution (utils/urn_resolve.py; services/snapshot.py
`_resolve_urn_locally` uses the first three tables)

Static lookup tables transcribed from the source. -/

def SENIORITY_MAP : List (String × String) := [
  ("1", "Unpaid"),
  ("2", "Training"),
  ("3", "Entry"),
  ("4", "Senior"),
  ("5", "Manager"),
  ("6", "Director"),
  ("7", "VP"),
  ("8", "CXO"),
  ("9", "Partner"),
  ("10", "Owner")]

def COMPANY_SIZE_MAP : List (String × String) := [
  ("A", "Self-employed (1)"),
  ("B", "2-10 employees"),
  ("C", "11-50 employees"),
  ("D", "51-200 employees"),
  ("E", "201-500 employees"),
  ("F", "501-1,000 employees"),
  ("G", "1,001-5,000 employees"),
  ("H", "5,001-10,000 employees"),
  ("I", "10,001+ employees")]

def JOB_FUNCTION_MAP : List (String × String) := [
  ("1", "Accounting"),
  ("2", "Administrative"),
  ("3", "Arts and Design"),
  ("4", "Business Development"),
  ("5", "Community & Social Services"),
  ("6", "Consulting"),
  ("7", "Education"),
  ("8", "Engineering"),
  ("9", "Entrepreneurship"),
  ("10", "Finance"),
  ("11", "Healthcare Services"),
  ("12", "Human Resources"),
  ("13", "Information Technology"),
  ("14", "Legal"),
  ("15", "Marketing"),
  ("16", "Media & Communications"),
  ("17", "Military & Protective Services"),
  ("18", "Operations"),
  ("19", "Product Management"),
  ("20", "Program & Project Management"),
  ("21", "Purchasing"),
  ("22", "Quality Assurance"),
  ("23", "Real Estate"),
  ("24", "Research"),
  ("25", "Sales"),
  ("26", "Customer Success & Support")]

def GEO_MAP : List (String × String) := [
  ("100994331", "Egypt"),
  ("101009982", "Algeria"),
  ("101165590", "United Kingdom"),
  ("101174742", "Canada"),
  ("101282230", "Germany"),
  ("101355337", "Pakistan"),
  ("101452733", "Philippines"),
  ("101620260", "Turkey"),
  ("102095887", "Colombia"),
  ("102098153", "South Korea"),
  ("102221843", "Argentina"),
  ("102257491", "Sweden"),
  ("102454443", "Ireland"),
  ("102713980", "India"),
  ("102890719", "France"),
  ("102974008", "Bangladesh"),
  ("103035651", "Mexico"),
  ("103350119", "Israel"),
  ("103588929", "Chile"),
  ("103644278", "United States"),
  ("103698695", "Nigeria"),
  ("103883259", "Belgium"),
  ("104035573", "Kenya"),
  ("104042275", "Portugal"),
  ("104305776", "Japan"),
  ("104514572", "Poland"),
  ("104621616", "Saudi Arabia"),
  ("104738515", "Netherlands"),
  ("104769905", "South Africa"),
  ("104878862", "Denmark"),
  ("104934075", "Russia"),
  ("104996005", "Greece"),
  ("105015875", "Australia"),
  ("105072130", "Singapore"),
  ("105117694", "Thailand"),
  ("105149562", "Czech Republic"),
  ("105327284", "Norway"),
  ("105490917", "Austria"),
  ("105646813", "Switzerland"),
  ("105763813", "Morocco"),
  ("105912832", "China"),
  ("106057199", "Brazil"),
  ("106155005", "Spain"),
  ("106693272", "Italy"),
  ("106834578", "Vietnam"),
  ("107534077", "New Zealand"),
  ("107862105", "Taiwan"),
  ("108166956", "Romania"),
  ("108301978", "Peru")]

def INDUSTRY_MAP : List (String × String) := [
  ("1", "Defense & Space"),
  ("3", "Computer Hardware"),
  ("4", "Computer Software"),
  ("5", "Computer Networking"),
  ("6", "Internet"),
  ("7", "Semiconductors"),
  ("8", "Telecommunications"),
  ("10", "Law Practice"),
  ("11", "Legal Services"),
  ("12", "Management Consulting"),
  ("13", "Biotechnology"),
  ("14", "Medical Practice"),
  ("15", "Hospital & Health Care"),
  ("16", "Pharmaceuticals"),
  ("17", "Veterinary"),
  ("18", "Medical Devices"),
  ("19", "Cosmetics"),
  ("20", "Apparel & Fashion"),
  ("21", "Sporting Goods"),
  ("22", "Tobacco"),
  ("23", "Supermarkets"),
  ("24", "Food Production"),
  ("25", "Consumer Electronics"),
  ("26", "Consumer Goods"),
  ("27", "Furniture"),
  ("28", "Retail"),
  ("29", "Entertainment"),
  ("30", "Gambling & Casinos"),
  ("31", "Leisure, Travel & Tourism"),
  ("32", "Hospitality"),
  ("33", "Restaurants"),
  ("34", "Sports"),
  ("35", "Food & Beverages"),
  ("36", "Motion Pictures and Film"),
  ("37", "Broadcast Media"),
  ("38", "Museums and Institutions"),
  ("39", "Fine Art"),
  ("40", "Performing Arts"),
  ("41", "Recreational Facilities"),
  ("42", "Banking"),
  ("43", "Insurance"),
  ("44", "Financial Services"),
  ("45", "Real Estate"),
  ("46", "Investment Banking"),
  ("47", "Investment Management"),
  ("48", "Accounting"),
  ("49", "Construction"),
  ("50", "Building Materials"),
  ("51", "Architecture & Planning"),
  ("52", "Civil Engineering"),
  ("53", "Aviation & Aerospace"),
  ("54", "Automotive"),
  ("55", "Chemicals"),
  ("56", "Machinery"),
  ("57", "Mining & Metals"),
  ("58", "Oil & Energy"),
  ("59", "Shipbuilding"),
  ("60", "Utilities"),
  ("61", "Textiles"),
  ("62", "Paper & Forest Products"),
  ("63", "Railroad Manufacture"),
  ("64", "Farming"),
  ("65", "Ranching"),
  ("66", "Dairy"),
  ("67", "Fishery"),
  ("68", "Primary/Secondary Education"),
  ("69", "Higher Education"),
  ("70", "Education Management"),
  ("71", "Research"),
  ("72", "Military"),
  ("73", "Legislative Office"),
  ("74", "Judiciary"),
  ("75", "International Affairs"),
  ("76", "Government Administration"),
  ("77", "Executive Office"),
  ("78", "Law Enforcement"),
  ("79", "Public Safety"),
  ("80", "Public Policy"),
  ("81", "Marketing and Advertising"),
  ("82", "Newspapers"),
  ("83", "Publishing"),
  ("84", "Printing"),
  ("85", "Information Services"),
  ("86", "Libraries"),
  ("87", "Environmental Services"),
  ("88", "Package/Freight Delivery"),
  ("89", "Individual & Family Services"),
  ("90", "Religious Institutions"),
  ("91", "Civic & Social Organization"),
  ("92", "Consumer Services"),
  ("93", "Transportation/Trucking/Railroad"),
  ("94", "Warehousing"),
  ("95", "Airlines/Aviation"),
  ("96", "Maritime"),
  ("97", "Information Technology and Services"),
  ("98", "Market Research"),
  ("99", "Public Relations and Communications"),
  ("100", "Design"),
  ("101", "Nonprofit Organization Management"),
  ("102", "Fund-Raising"),
  ("103", "Program Development"),
  ("104", "Writing and Editing"),
  ("105", "Staffing and Recruiting"),
  ("106", "Professional Training & Coaching"),
  ("107", "Venture Capital & Private Equity"),
  ("108", "Political Organization"),
  ("109", "Translation and Localization"),
  ("110", "Computer Games"),
  ("111", "Events Services"),
  ("112", "Arts and Crafts"),
  ("113", "Electrical/Electronic Manufacturing"),
  ("114", "Online Media"),
  ("115", "Nanotechnology"),
  ("116", "Music"),
  ("117", "Logistics and Supply Chain"),
  ("118", "Plastics"),
  ("119", "Computer & Network Security"),
  ("120", "Wireless"),
  ("121", "Alternative Dispute Resolution"),
  ("122", "Security and Investigations"),
  ("123", "Facilities Services"),
  ("124", "Outsourcing/Offshoring"),
  ("125", "Health, Wellness and Fitness"),
  ("126", "Alternative Medicine"),
  ("127", "Media Production"),
  ("128", "Animation"),
  ("129", "Commercial Real Estate"),
  ("130", "Capital Markets"),
  ("131", "Think Tanks"),
  ("132", "Philanthropy"),
  ("133", "E-Learning"),
  ("134", "Wholesale"),
  ("135", "Import and Export"),
  ("136", "Mechanical or Industrial Engineering"),
  ("137", "Photography"),
  ("138", "Human Resources"),
  ("139", "Business Supplies and Equipment"),
  ("140", "Mental Health Care"),
  ("141", "Graphic Design"),
  ("142", "International Trade and Development"),
  ("143", "Wine and Spirits"),
  ("144", "Luxury Goods & Jewelry"),
  ("145", "Renewables & Environment"),
  ("146", "Glass, Ceramics & Concrete"),
  ("147", "Packaging and Containers"),
  ("148", "Industrial Automation"),
  ("149", "Government Relations"),
  ("150", "Horticulture"),
  ("1029", "Technology, Information and Internet")]

def TITLE_MAP : List (String × String) := [
  ("39", "CEO"),
  ("100", "VP"),
  ("134", "Engineer"),
  ("137", "Consultant"),
  ("143", "Analyst"),
  ("173", "Marketing Manager"),
  ("245", "Project Manager"),
  ("268", "CTO"),
  ("280", "Director of Operations"),
  ("340", "Account Executive"),
  ("382", "Software Developer"),
  ("474", "HR Manager"),
  ("577", "Business Analyst"),
  ("662", "Sales Manager"),
  ("681", "Financial Analyst"),
  ("776", "Operations Manager"),
  ("879", "Data Analyst"),
  ("919", "Account Manager"),
  ("1006", "Product Manager"),
  ("1059", "Founder"),
  ("1181", "Program Manager"),
  ("1335", "Managing Director"),
  ("1469", "Sales Director"),
  ("1558", "Co-Founder"),
  ("1712", "Director of Sales"),
  ("2169", "Head of Marketing"),
  ("2447", "Data Scientist"),
  ("3813", "Growth Manager"),
  ("4687", "Head of Sales"),
  ("5665", "Revenue Operations"),
  ("6038", "Demand Generation Manager"),
  ("8114", "Customer Success Manager"),
  ("8534", "SDR Manager"),
  ("9533", "Head of Growth"),
  ("10724", "Partnerships Manager"),
  ("11726", "Chief Revenue Officer"),
  ("12491", "VP of Sales"),
  ("13057", "Sales Development Representative")]

/-- Python `s.split(":")`, over the character list. -/
def splitOnChar (sep : Char) : List Char → List (List Char)
  | [] => [[]]
  | c :: rest =>
    match splitOnChar sep rest with
    | [] => [[]]
    | g :: gs => if c = sep then [] :: g :: gs else (c :: g) :: gs

def splitColon (s : String) : List String :=
  (splitOnChar ':' s.toList).map List.asString

/-- utils/urn_resolve.py `resolve_urn`: a total function on strings; an URN
with fewer than 4 colon-separated parts resolves to `""`, a known type with
an unknown value resolves to `""` (`dict.get` default), an unknown type
resolves to `""`. -/
def resolveUrn (urn : String) : String :=
  match splitColon urn with
  | _ :: _ :: ty :: idv :: _ =>
    if ty = "seniority" then (SENIORITY_MAP.lookup idv).getD ""
    else if ty = "companySizeRange" ∨ ty = "companySize" then
      (COMPANY_SIZE_MAP.lookup idv).getD ""
    else if ty = "function" then (JOB_FUNCTION_MAP.lookup idv).getD ""
    else if ty = "geo" then (GEO_MAP.lookup idv).getD ""
    else if ty = "industry" then (INDUSTRY_MAP.lookup idv).getD ""
    else if ty = "title" then (TITLE_MAP.lookup idv).getD ""
    else ""
  | _ => ""

/-- services/snapshot.py `_resolve_urn_locally`: same shape, only the
seniority / company-size / job-function tables. -/
def resolveUrnLocally (urn : String) : String :=
  match splitColon urn with
  | _ :: _ :: ty :: idv :: _ =>
    if ty = "seniority" then (SENIORITY_MAP.lookup idv).getD ""
    else if ty = "companySizeRange" ∨ ty = "companySize" then
      (COMPANY_SIZE_MAP.lookup idv).getD ""
    else if ty = "function" then (JOB_FUNCTION_MAP.lookup idv).getD ""
    else ""
  | _ => ""

/-! ### Raw API records and schema validation
(models/api_models.py, services/snapshot.py `_validate_list`)

Raw records are embedded with their typed fields; an absent key is `none`.
Pydantic validation of a `LinkedInAccount` / `LinkedInCampaign` /
`LinkedInCreative` requires exactly the non-defaulted fields; all other
fields have defaults, so a record is valid iff its required fields are
present.  Analytics and demographic rows have all fields defaulted; the only
way they can fail validation is the `costInLocalCurrency` coercer
(`float(v)`) rejecting a non-numeric string. -/

structure RawAccount where
  id : Option Int
  name : Option String
  status : Option String
  currency : Option String
  type : Option String
  test : Option Bool
  createdAt : Option Int
deriving DecidableEq

def accountValid (a : RawAccount) : Bool :=
  a.id.isSome && a.name.isSome && a.status.isSome

structure RawBudget where
  amount : Option String
  currencyCode : Option String
deriving DecidableEq

structure RawCampaign where
  id : Option Int
  name : Option String
  status : Option String
  type : Option String
  dailyBudget : Option RawBudget
  totalBudget : Option RawBudget
  unitCost : Option RawBudget
  costType : Option String
  optimizationTargetType : Option String
  creativeSelection : Option String
  offsiteDeliveryEnabled : Option Bool
  audienceExpansionEnabled : Option Bool
  runSchedule : Option String
  campaignGroup : Option String
  createdAt : Option Int
  account_tag : Option Int
deriving DecidableEq

def campaignValid (c : RawCampaign) : Bool :=
  c.id.isSome && c.name.isSome && c.status.isSome

structure RawContent where
  reference : Option String
deriving DecidableEq

structure RawCreative where
  id : Option String
  campaign : Option String
  intendedStatus : Option String
  isServing : Option Bool
  servingHoldReasons : Option (List String)
  content : Option RawContent
  createdAt : Option Int
  lastModifiedAt : Option Int
deriving DecidableEq

def creativeValid (cr : RawCreative) : Bool := cr.id.isSome

def costValid : CostVal → Bool
  | .str s => s = "" || (parseDecimal s).isSome
  | _ => true

def metricValid (r : MetricRow) : Bool := costValid r.cost

structure DemoRawRow where
  pivotValues : List String
  impressions : Int
  clicks : Int
  cost : CostVal
deriving DecidableEq

def demoValid (r : DemoRawRow) : Bool := costValid r.cost

/-- `_validate_list`: try to validate each record; on success append the
original record unchanged, on failure log a warning and skip it.  The loop
handles each record independently and never propagates an error. -/
def validateList {ρ : Type} (valid : ρ → Bool) : List ρ → List ρ
  | [] => []
  | r :: rest =>
    if valid r then r :: validateList valid rest else validateList valid rest

/-! ### Top-N demographics (`_top_demographics`) -/

/-- `r.get("pivotValues", ["?"])[0]`, for the shapes the pipeline produces
(an explicitly empty `pivotValues` list would raise IndexError in Python;
the API omits the key instead, which is the `[]` case here). -/
def rawSegmentOf (r : DemoRawRow) : String :=
  match r.pivotValues with
  | [] => "?"
  | s :: _ => s

/-- `urn_names.get(raw, "") or _resolve_urn_locally(raw)` then
`resolved or raw`. -/
def resolveSegment (urnNames : List (String × String)) (rawSeg : String) : String :=
  let fromCache :=
    match urnNames.lookup rawSeg with
    | some s => if s = "" then resolveUrnLocally rawSeg else s
    | none => resolveUrnLocally rawSeg
  if fromCache = "" then rawSeg else fromCache

/-- "a must be placed strictly before b" for the descending impressions
sort: a has strictly more impressions. -/
def befImp : DemoRawRow → DemoRawRow → Bool :=
  fun a b => decide (b.impressions < a.impressions)

/-- Sort descending by impressions, stably (Python `sorted(..., reverse=True)`
keeps original order on ties). -/
def sortByImpressionsDesc (rows : List DemoRawRow) : List DemoRawRow :=
  stableSortBy befImp rows

/-- Build one output segment; `total` is the impression total over all rows
of the pivot (computed before truncation). -/
def mkSegSnap (urnNames : List (String × String)) (total : Int) (r : DemoRawRow) :
    SegSnap :=
  let rawSeg := rawSegmentOf r
  { segment := resolveSegment urnNames rawSeg,
    segment_urn := rawSeg,
    impressions := r.impressions,
    clicks := r.clicks,
    ctr := if r.impressions = 0 then 0
           else roundTo 2 ((r.clicks : ℚ) / (r.impressions : ℚ) * 100),
    share_of_impressions := if total = 0 then 0
           else roundTo 1 ((r.impressions : ℚ) / (total : ℚ) * 100) }

/-- `_top_demographics(demo_rows, urn_names, top_n)`. -/
def topDemographics (demoRows : List DemoRawRow)
    (urnNames : List (String × String)) (topN : Nat) : List SegSnap :=
  let sortedRows := sortByImpressionsDesc demoRows
  let totalImp := (sortedRows.map (fun r => r.impressions)).sum
  (sortedRows.take topN).map (mkSegSnap urnNames totalImp)

/-! ### Demographics input shapes

`demo_data` is either keyed by account id (each entry either the new
`{pivots, urn_names}` shape or a plain pivot → rows map), or a single flat
pivot → rows map reused for every account.  When the map is keyed by account
and an assembled account id is missing from it, the Python code falls into
the flat-map branch and misapplies `_top_demographics` to dict entries,
raising for any nonempty map; the only well-defined case of that branch is
the empty map, which yields no demographics, and that is how it is modelled
here. -/

inductive DemoEntry where
  | withNames (pivots : List (String × List DemoRawRow))
              (urn_names : List (String × String))
  | plain (pivots : List (String × List DemoRawRow))
deriving DecidableEq

inductive DemoData where
  | byAccount (entries : List (Int × DemoEntry))
  | flat (pivots : List (String × List DemoRawRow))
deriving DecidableEq

/-- The validation pass over `demo_data`: values that are lists (the flat
shape) are validated per pivot; dict-shaped values pass through untouched. -/
def validateDemoData : DemoData → DemoData
  | .byAccount es => .byAccount es
  | .flat ps => .flat (ps.map (fun pv => (pv.1, validateList demoValid pv.2)))

def acctDemoFor (dd : DemoData) (aid : Option Int) :
    List (String × List DemoRawRow) × List (String × String) :=
  match dd with
  | .flat ps => (ps, [])
  | .byAccount es =>
    match aid.bind (fun i => es.lookup i) with
    | some (.withNames ps ns) => (ps, ns)
    | some (.plain ps) => (ps, [])
    | none => ([], [])

/-- `str(pivot).lower().replace("member_", "")`. -/
def pivotKeyOf (pivot : String) : String :=
  pivot.toLower.replace "member_" ""

/-! ### Snapshot assembly (services/snapshot.py `assemble_snapshot`) -/

structure ACreative where
  id : String
  intended_status : Option String
  is_serving : Bool
  serving_hold_reasons : List String
  content_reference : Option String
  created_at : Option Int
  last_modified_at : Option Int
  metrics_summary : Option AggResult
  daily_metrics : List DailySnap
deriving DecidableEq

structure ASettings where
  daily_budget : Option String
  daily_budget_currency : Option String
  total_budget : Option String
  cost_type : Option String
  unit_cost : Option String
  bid_strategy : Option String
  creative_selection : Option String
  offsite_delivery_enabled : Bool
  audience_expansion_enabled : Bool
  run_schedule : Option String
  campaign_group : Option String
deriving DecidableEq

structure ACampaign where
  id : Option Int
  name : Option String
  status : Option String
  type : Option String
  created_at : Option Int
  settings : ASettings
  metrics_summary : Option AggResult
  daily_metrics : List DailySnap
  creatives : List ACreative
deriving DecidableEq

structure AAccount where
  id : Option Int
  name : Option String
  status : Option String
  currency : Option String
  type : Option String
  test : Bool
  created_at : Option Int
  campaigns : List ACampaign
  audience_demographics : List (String × List SegSnap)
deriving DecidableEq

structure ASnapshot where
  generated_at : String
  date_range : DateRangeSnap
  accounts : List AAccount
deriving DecidableEq

/-- A Python `datetime.date`: its ISO rendering plus its proleptic ordinal,
so that `date_end - date_start` is `ord` subtraction. -/
structure PyDate where
  iso : String
  ord : Int
deriving DecidableEq

/-- Append `v` to the group of key `k`, creating the group at the end on
first sight — a dict-of-lists built with `setdefault(...).append(...)`
(dict keys are unique, so updating the first entry with the key is the
dict update). -/
def insertAppend {κ ρ : Type} [DecidableEq κ] (k : κ) (v : ρ) :
    List (κ × List ρ) → List (κ × List ρ)
  | [] => [(k, [v])]
  | p :: m => if p.1 = k then (p.1, p.2 ++ [v]) :: m else p :: insertAppend k v m

/-- Group a list by an optional key, skipping unkeyed elements. -/
def groupFold {κ ρ : Type} [DecidableEq κ] (key : ρ → Option κ) (l : List ρ) :
    List (κ × List ρ) :=
  l.foldl
    (fun m r =>
      match key r with
      | none => m
      | some k => insertAppend k r m)
    []

/-- `_extract_id_from_urn`. -/
def extractIdFromUrn (urn : String) : String :=
  if urn.toList.contains ':' then
    match (splitOnChar ':' urn.toList).getLast? with
    | some cs => cs.asString
    | none => urn
  else urn

def containsSub (pat s : String) : Bool := decide (pat.toList <:+: s.toList)

/-- Index campaign metric rows by campaign id extracted from each pivot URN. -/
def campMetricMap (campMetrics : List MetricRow) : List (String × List MetricRow) :=
  campMetrics.foldl
    (fun m r => r.pivotValues.foldl
      (fun m pv => insertAppend (extractIdFromUrn pv) r m) m)
    []

/-- Index creative metric rows by the full creative URN. -/
def creatMetricMap (creatMetrics : List MetricRow) : List (String × List MetricRow) :=
  creatMetrics.foldl
    (fun m r => r.pivotValues.foldl
      (fun m pv => if containsSub "sponsoredCreative" pv then insertAppend pv r m else m)
      m)
    []

/-- Index creatives by owning campaign URN (`cr.get("campaign", "")`). -/
def creativesByCampaign (creatives : List RawCreative) :
    List (String × List RawCreative) :=
  creatives.foldl (fun m cr => insertAppend (cr.campaign.getD "") cr m) []

/-- Index campaigns by the caller-supplied `_account_id` tag; untagged (or
non-int-coercible) campaigns are skipped. -/
def campaignsByAccount (campaigns : List RawCampaign) :
    List (Int × List RawCampaign) :=
  groupFold (fun c => c.account_tag) campaigns

def settingsOf (c : RawCampaign) : ASettings :=
  { daily_budget := c.dailyBudget.bind (fun b => b.amount),
    daily_budget_currency := c.dailyBudget.bind (fun b => b.currencyCode),
    total_budget := c.totalBudget.bind (fun b => b.amount),
    cost_type := c.costType,
    unit_cost := c.unitCost.bind (fun b => b.amount),
    bid_strategy := c.optimizationTargetType,
    creative_selection := c.creativeSelection,
    offsite_delivery_enabled := c.offsiteDeliveryEnabled.getD false,
    audience_expansion_enabled := c.audienceExpansionEnabled.getD false,
    run_schedule := c.runSchedule,
    campaign_group := c.campaignGroup }

/-- `str(camp.get("id", ""))`. -/
def campaignIdStr (c : RawCampaign) : String :=
  match c.id with
  | some i => toString i
  | none => ""

def assembleCreative (creatMM : List (String × List MetricRow)) (cr : RawCreative) :
    ACreative :=
  let crId := cr.id.getD ""
  let rows := (creatMM.lookup crId).getD []
  { id := crId,
    intended_status := cr.intendedStatus,
    is_serving := cr.isServing.getD false,
    serving_hold_reasons := cr.servingHoldReasons.getD [],
    content_reference := cr.content.bind (fun c => c.reference),
    created_at := cr.createdAt,
    last_modified_at := cr.lastModifiedAt,
    metrics_summary := if rows = [] then none else some (aggregateMetrics rows),
    daily_metrics := if rows = [] then [] else dailyTimeSeries rows }

def assembleCampaign (campMM creatMM : List (String × List MetricRow))
    (creatByCamp : List (String × List RawCreative)) (c : RawCampaign) :
    ACampaign :=
  let cid := campaignIdStr c
  let campUrn := "urn:li:sponsoredCampaign:" ++ cid
  let rows := (campMM.lookup cid).getD []
  { id := c.id, name := c.name, status := c.status, type := c.type,
    created_at := c.createdAt,
    settings := settingsOf c,
    metrics_summary := if rows = [] then none else some (aggregateMetrics rows),
    daily_metrics := if rows = [] then [] else dailyTimeSeries rows,
    creatives := ((creatByCamp.lookup campUrn).getD []).map (assembleCreative creatMM) }

/-- The campaigns an account receives: those tagged with its id, the whole
list when the grouped index has no entry for it (or the account has no id). -/
def campaignsForAccount (allCampaigns : List RawCampaign)
    (campByAcct : List (Int × List RawCampaign)) (aid : Option Int) :
    List RawCampaign :=
  match aid with
  | some i => (campByAcct.lookup i).getD allCampaigns
  | none => allCampaigns

def assembleAccount (allCampaigns : List RawCampaign)
    (campByAcct : List (Int × List RawCampaign))
    (campMM creatMM : List (String × List MetricRow))
    (creatByCamp : List (String × List RawCreative))
    (dd : DemoData) (a : RawAccount) : AAccount :=
  let demoPart := acctDemoFor dd a.id
  { id := a.id, name := a.name, status := a.status, currency := a.currency,
    type := a.type, test := a.test.getD false, created_at := a.createdAt,
    campaigns := (campaignsForAccount allCampaigns campByAcct a.id).map
      (assembleCampaign campMM creatMM creatByCamp),
    audience_demographics := demoPart.1.map
      (fun pv => (pivotKeyOf pv.1, topDemographics pv.2 demoPart.2 10)) }

/-- services/snapshot.py `assemble_snapshot`.  `nowIso` stands for the
`datetime.now(...)` timestamp. -/
def assembleSnapshot (accounts : List RawAccount)
    (campaignsList : List RawCampaign) (creativesList : List RawCreative)
    (campMetrics creatMetrics : List MetricRow) (demoData : DemoData)
    (dateStart dateEnd : PyDate) (nowIso : String) : ASnapshot :=
  let accountsV := validateList accountValid accounts
  let campaignsV := validateList campaignValid campaignsList
  let creativesV := validateList creativeValid creativesList
  let campMetricsV := validateList metricValid campMetrics
  let creatMetricsV := validateList metricValid creatMetrics
  let demoV := validateDemoData demoData
  let campMM := campMetricMap campMetricsV
  let creatMM := creatMetricMap creatMetricsV
  let creatByCamp := creativesByCampaign creativesV
  let campByAcct := campaignsByAccount campaignsV
  { generated_at := nowIso,
    date_range := ⟨dateStart.iso, dateEnd.iso, dateEnd.ord - dateStart.ord⟩,
    accounts := accountsV.map
      (assembleAccount campaignsV campByAcct campMM creatMM creatByCamp demoV) }

/-! ### Concrete fixtures used by the closed test theorems -/

def fixSettings : PSettings := ⟨none, none, none, none, none, none, none, false, false, none⟩

def fixDaily : DailySnap := ⟨"2024-01-02", 10, 1, 0, 0, 0, 0, 0, 0, 0, 0, 0, 0, 0, 0⟩

def fixCreative (created : Int) : CreativeSnap :=
  ⟨"urn:li:sponsoredCreative:9", none, false, [], none, some created, none, []⟩

def fixCreativeWithDaily : CreativeSnap :=
  ⟨"urn:li:sponsoredCreative:9", none, false, [], none, some 100, none, [fixDaily]⟩

def fixCampaign (crs : List CreativeSnap) : PCampaign :=
  ⟨7, "Camp", "ACTIVE", none, fixSettings, [], crs⟩

def fixAccount (name : String) (camps : List PCampaign) : PAccount :=
  ⟨1, name, "ACTIVE", none, none, false, camps, []⟩

def fixRange : DateRangeSnap := ⟨"2024-01-01", "2024-03-31", 90⟩

def fixSnapAccount (name : String) : PSnapshot := ⟨[fixAccount name []], fixRange⟩

def fixSnapCreative (created : Int) : PSnapshot :=
  ⟨[fixAccount "A" [fixCampaign [fixCreative created]]], fixRange⟩

def fixSnapCreativeDaily : PSnapshot :=
  ⟨[fixAccount "A" [fixCampaign [fixCreativeWithDaily]]], fixRange⟩

/-- An account carrying exactly one campaign (with one daily metric row and
one creative) and one demographic segment — the shape used to state the
per-entity upsert semantics. -/
def withChildren (a : PAccount) (c : PCampaign) (cr : CreativeSnap) (d : DailySnap)
    (p : String) (g : SegSnap) : PAccount :=
  { a with
    campaigns := [{ c with daily_metrics := [d], creatives := [cr] }],
    audience_demographics := [(p, [g])] }

def oneAccountSnap (a : PAccount) (dr : DateRangeSnap) : PSnapshot := ⟨[a], dr⟩

/-- A raw analytics row with the given impressions, clicks and cost string
and every other counter 0 — the shape of the C6 aggregation example. -/
def fixMetricRow (imp clk : Int) (cost : String) : MetricRow :=
  ⟨[], none, imp, clk, CostVal.str cost, 0, 0, 0, 0, 0, 0, 0, 0, 0⟩

def fixRawAccount (oid : Option Int) (name : String) : RawAccount :=
  ⟨oid, some name, some "ACTIVE", none, none, none, none⟩

def fixRawCampaign (cid : Int) (tag : Option Int) : RawCampaign :=
  ⟨some cid, some "Camp", some "ACTIVE", none, none, none, none, none, none, none,
   none, none, none, none, none, tag⟩

def fixDate1 : PyDate := ⟨"2024-01-01", 0⟩

def fixDate2 : PyDate := ⟨"2024-03-31", 90⟩

def fixDemoRow (seg : String) (imp : Int) : DemoRawRow := ⟨[seg], imp, 0, .absent⟩

/-- 15 demographic rows with distinct impression counts 15..1. -/
def fixDemoRows15 : List DemoRawRow :=
  [fixDemoRow "a1" 15, fixDemoRow "a2" 14, fixDemoRow "a3" 13, fixDemoRow "a4" 12,
   fixDemoRow "a5" 11, fixDemoRow "a6" 10, fixDemoRow "a7" 9, fixDemoRow "a8" 8,
   fixDemoRow "a9" 7, fixDemoRow "a10" 6, fixDemoRow "a11" 5, fixDemoRow "a12" 4,
   fixDemoRow "a13" 3, fixDemoRow "a14" 2, fixDemoRow "a15" 1]

/-- 11 demographic rows, all with nonzero impressions: one large segment and
ten equal small ones (total 2000). -/
def fixDemoRows11 : List DemoRawRow :=
  [fixDemoRow "big" 1000, fixDemoRow "b1" 100, fixDemoRow "b2" 100,
   fixDemoRow "b3" 100, fixDemoRow "b4" 100, fixDemoRow "b5" 100,
   fixDemoRow "b6" 100, fixDemoRow "b7" 100, fixDemoRow "b8" 100,
   fixDemoRow "b9" 100, fixDemoRow "b10" 100]

/-- Six demographic rows with one impression each. -/
def fixDemoRows6 : List DemoRawRow :=
  [fixDemoRow "c1" 1, fixDemoRow "c2" 1, fixDemoRow "c3" 1,
   fixDemoRow "c4" 1, fixDemoRow "c5" 1, fixDemoRow "c6" 1]

/-! ## Theorems -/

/-! ### Generic keyed-store lemmas -/

section StoreLemmas

variable {κ ρ : Type} [DecidableEq κ]

theorem findByKey_upsertRow (keyOf : ρ → κ) (merge : ρ → ρ → ρ)
    (hkey : ∀ o r, keyOf (merge o r) = keyOf r) (row : ρ) (k : κ) (t : List ρ) :
    findByKey keyOf k (upsertRow keyOf merge row t) =
      if k = keyOf row then
        some ((findByKey keyOf k t).elim row (fun o => merge o row))
      else findByKey keyOf k t := by
  induction t with
  | nil =>
    by_cases h : k = keyOf row
    · simp [upsertRow, findByKey, h]
    · simp [upsertRow, findByKey, h, Ne.symm h]
  | cons r rest ih =>
    by_cases hr : keyOf r = keyOf row
    · by_cases hk : k = keyOf row
      · subst hk
        simp [upsertRow, hr, findByKey, hkey]
      · have h1 : keyOf row ≠ k := fun hh => hk hh.symm
        have h2 : keyOf r ≠ k := fun hh => hk (hr ▸ hh).symm
        simp [upsertRow, hr, findByKey, hkey, hk, h1, h2]
    · by_cases hrk : keyOf r = k
      · have hk : k ≠ keyOf row := fun hh => hr (hrk.trans hh)
        simp [upsertRow, hr, findByKey, hrk, hk]
      · simp [upsertRow, hr, findByKey, hrk, ih]

theorem length_upsertRow (keyOf : ρ → κ) (merge : ρ → ρ → ρ) (row : ρ) (t : List ρ) :
    (upsertRow keyOf merge row t).length =
      if (findByKey keyOf (keyOf row) t).isSome then t.length else t.length + 1 := by
  induction t with
  | nil => simp [upsertRow, findByKey]
  | cons r rest ih =>
    by_cases hr : keyOf r = keyOf row
    · simp [upsertRow, hr, findByKey]
    · by_cases h2 : (findByKey keyOf (keyOf row) rest).isSome
      · simp [upsertRow, hr, findByKey, h2, ih]
      · simp [upsertRow, hr, findByKey, h2, ih]

theorem isSome_findByKey_upsertRow (keyOf : ρ → κ) (merge : ρ → ρ → ρ)
    (hkey : ∀ o r, keyOf (merge o r) = keyOf r) (row : ρ) (k : κ) (t : List ρ)
    (h : (findByKey keyOf k t).isSome) :
    (findByKey keyOf k (upsertRow keyOf merge row t)).isSome := by
  rw [findByKey_upsertRow keyOf merge hkey]
  by_cases hk : k = keyOf row <;> simp [hk, h]

theorem applyUpserts_nil (keyOf : ρ → κ) (merge : ρ → ρ → ρ) (t : List ρ) :
    applyUpserts keyOf merge [] t = t := rfl

theorem applyUpserts_cons (keyOf : ρ → κ) (merge : ρ → ρ → ρ) (r : ρ)
    (ops : List ρ) (t : List ρ) :
    applyUpserts keyOf merge (r :: ops) t =
      applyUpserts keyOf merge ops (upsertRow keyOf merge r t) := rfl

theorem mergeRun_some {merge : ρ → ρ → ρ} (l : List ρ) :
    ∀ x, mergeRun merge (some x) l = some (l.foldl merge x) := by
  induction l with
  | nil => intro x; rfl
  | cons r rest ih => intro x; simp [mergeRun, List.foldl_cons, ih]

theorem foldl_merge_absorb {merge : ρ → ρ → ρ}
    (hforget : ∀ a b c, merge (merge a b) c = merge a c) (l : List ρ) :
    ∀ x c, merge (l.foldl merge x) c = merge x c := by
  induction l with
  | nil => intro x c; rfl
  | cons r rest ih => intro x c; simp [List.foldl_cons, ih, hforget]

theorem mergeRun_isSome {merge : ρ → ρ → ρ} (old : Option ρ) (l : List ρ)
    (h : l ≠ []) : (mergeRun merge old l).isSome := by
  cases l with
  | nil => exact absurd rfl h
  | cons r rest => cases old <;> simp [mergeRun, mergeRun_some]

theorem mergeRun_mergeRun {merge : ρ → ρ → ρ}
    (hforget : ∀ a b c, merge (merge a b) c = merge a c)
    (hidem : ∀ a, merge a a = a) (old : Option ρ) (l : List ρ) :
    mergeRun merge (mergeRun merge old l) l = mergeRun merge old l := by
  cases l with
  | nil => rfl
  | cons r rest =>
    cases old with
    | none =>
      simp [mergeRun, mergeRun_some, foldl_merge_absorb hforget, hidem]
    | some o =>
      simp [mergeRun, mergeRun_some, foldl_merge_absorb hforget, hidem, hforget]

theorem findByKey_applyUpserts (keyOf : ρ → κ) (merge : ρ → ρ → ρ)
    (hkey : ∀ o r, keyOf (merge o r) = keyOf r) (ops : List ρ) :
    ∀ (t : List ρ) (k : κ),
      findByKey keyOf k (applyUpserts keyOf merge ops t) =
        mergeRun merge (findByKey keyOf k t)
          (ops.filter (fun r => keyOf r = k)) := by
  induction ops with
  | nil => intro t k; rfl
  | cons r ops ih =>
    intro t k
    rw [applyUpserts_cons, ih, findByKey_upsertRow keyOf merge hkey]
    by_cases hk : k = keyOf r
    · subst hk
      simp [List.filter_cons, mergeRun]
    · have h1 : ¬ (keyOf r = k) := fun hh => hk hh.symm
      simp [List.filter_cons, h1, hk]

theorem isSome_findByKey_applyUpserts (keyOf : ρ → κ) (merge : ρ → ρ → ρ)
    (hkey : ∀ o r, keyOf (merge o r) = keyOf r) (ops : List ρ) (t : List ρ)
    (r : ρ) (hr : r ∈ ops) :
    (findByKey keyOf (keyOf r) (applyUpserts keyOf merge ops t)).isSome := by
  rw [findByKey_applyUpserts keyOf merge hkey]
  apply mergeRun_isSome
  intro hfil
  have : ∀ x ∈ ops, ¬ (keyOf x = keyOf r) := by
    simpa [List.filter_eq_nil_iff] using hfil
  exact this r hr rfl

theorem length_applyUpserts_of_present (keyOf : ρ → κ) (merge : ρ → ρ → ρ)
    (hkey : ∀ o r, keyOf (merge o r) = keyOf r) (ops : List ρ) :
    ∀ t, (∀ r ∈ ops, (findByKey keyOf (keyOf r) t).isSome) →
      (applyUpserts keyOf merge ops t).length = t.length := by
  induction ops with
  | nil => intro t _; rfl
  | cons r ops ih =>
    intro t h
    rw [applyUpserts_cons, ih (upsertRow keyOf merge r t)]
    · rw [length_upsertRow keyOf merge r t]
      simp [h r (by simp)]
    · intro x hx
      exact isSome_findByKey_upsertRow keyOf merge hkey r (keyOf x) t
        (h x (by simp [hx]))

theorem applyUpserts_idem_find (keyOf : ρ → κ) (merge : ρ → ρ → ρ)
    (hkey : ∀ o r, keyOf (merge o r) = keyOf r)
    (hforget : ∀ a b c, merge (merge a b) c = merge a c)
    (hidem : ∀ a, merge a a = a) (ops : List ρ) (t : List ρ) (k : κ) :
    findByKey keyOf k (applyUpserts keyOf merge ops (applyUpserts keyOf merge ops t)) =
      findByKey keyOf k (applyUpserts keyOf merge ops t) := by
  rw [findByKey_applyUpserts keyOf merge hkey, findByKey_applyUpserts keyOf merge hkey,
      mergeRun_mergeRun hforget hidem]

theorem applyUpserts_idem_length (keyOf : ρ → κ) (merge : ρ → ρ → ρ)
    (hkey : ∀ o r, keyOf (merge o r) = keyOf r) (ops : List ρ) (t : List ρ) :
    (applyUpserts keyOf merge ops (applyUpserts keyOf merge ops t)).length =
      (applyUpserts keyOf merge ops t).length := by
  apply length_applyUpserts_of_present keyOf merge hkey
  intro r hr
  exact isSome_findByKey_applyUpserts keyOf merge hkey ops t r hr

end StoreLemmas

/-! ### Merge-function facts for the five upsert kinds -/

theorem mergeReplace_key {κ ρ : Type} (keyOf : ρ → κ) :
    ∀ o r : ρ, keyOf (mergeReplace o r) = keyOf r :=
  fun _ _ => rfl

theorem mergeReplace_forget {ρ : Type} :
    ∀ a b c : ρ, mergeReplace (mergeReplace a b) c = mergeReplace a c :=
  fun _ _ _ => rfl

theorem mergeReplace_idem {ρ : Type} : ∀ a : ρ, mergeReplace a a = a := fun _ => rfl

theorem mergeCreative_key : ∀ o r, creativeKey (mergeCreative o r) = creativeKey r :=
  fun _ _ => rfl

theorem mergeCreative_forget :
    ∀ a b c, mergeCreative (mergeCreative a b) c = mergeCreative a c :=
  fun _ _ _ => rfl

theorem mergeCreative_idem : ∀ a, mergeCreative a a = a := fun _ => rfl

/-! ### C2 — idempotence of persist -/

/-- C2: for every snapshot `S`, running `persist(S)` twice in succession
leaves the relational store with exactly the same row counts and the same
row values at every natural key in every table as running `persist(S)` once;
the two tables persist never writes (`creative_daily_metrics`, `sync_log`)
are unchanged outright.  (`now` is the timestamp `persist` stamps into
`fetched_at`; running "in succession" replays the same ops.) -/
theorem persist_twice_eq_once (s : PSnapshot) (now : String) (db : Database) :
    ((persistSnapshot s now (persistSnapshot s now db)).ad_accounts.length =
        (persistSnapshot s now db).ad_accounts.length ∧
      (persistSnapshot s now (persistSnapshot s now db)).campaigns.length =
        (persistSnapshot s now db).campaigns.length ∧
      (persistSnapshot s now (persistSnapshot s now db)).campaign_daily_metrics.length =
        (persistSnapshot s now db).campaign_daily_metrics.length ∧
      (persistSnapshot s now (persistSnapshot s now db)).creatives.length =
        (persistSnapshot s now db).creatives.length ∧
      (persistSnapshot s now (persistSnapshot s now db)).audience_demographics.length =
        (persistSnapshot s now db).audience_demographics.length) ∧
    ((∀ k : Int,
       findByKey acctKey k (persistSnapshot s now (persistSnapshot s now db)).ad_accounts =
         findByKey acctKey k (persistSnapshot s now db).ad_accounts) ∧
     (∀ k : Int,
       findByKey campKey k (persistSnapshot s now (persistSnapshot s now db)).campaigns =
         findByKey campKey k (persistSnapshot s now db).campaigns) ∧
     (∀ k : Int × String,
       findByKey campDailyKey k
           (persistSnapshot s now (persistSnapshot s now db)).campaign_daily_metrics =
         findByKey campDailyKey k (persistSnapshot s now db).campaign_daily_metrics) ∧
     (∀ k : String,
       findByKey creativeKey k (persistSnapshot s now (persistSnapshot s now db)).creatives =
         findByKey creativeKey k (persistSnapshot s now db).creatives) ∧
     (∀ k : Int × String × String × String,
       findByKey demoKey k
           (persistSnapshot s now (persistSnapshot s now db)).audience_demographics =
         findByKey demoKey k (persistSnapshot s now db).audience_demographics)) ∧
    ((persistSnapshot s now (persistSnapshot s now db)).creative_daily_metrics =
        (persistSnapshot s now db).creative_daily_metrics ∧
      (persistSnapshot s now (persistSnapshot s now db)).sync_log =
        (persistSnapshot s now db).sync_log) := by
  refine ⟨⟨?_, ?_, ?_, ?_, ?_⟩, ⟨?_, ?_, ?_, ?_, ?_⟩, ?_, ?_⟩
  · simpa [persistSnapshot] using
      applyUpserts_idem_length acctKey mergeReplace (mergeReplace_key acctKey)
        (accountOps s now) db.ad_accounts
  · simpa [persistSnapshot] using
      applyUpserts_idem_length campKey mergeReplace (mergeReplace_key campKey)
        (campaignOps s now) db.campaigns
  · simpa [persistSnapshot] using
      applyUpserts_idem_length campDailyKey mergeReplace (mergeReplace_key campDailyKey)
        (campaignDailyOps s now) db.campaign_daily_metrics
  · simpa [persistSnapshot] using
      applyUpserts_idem_length creativeKey mergeCreative mergeCreative_key
        (creativeOps s now) db.creatives
  · simpa [persistSnapshot] using
      applyUpserts_idem_length demoKey mergeReplace (mergeReplace_key demoKey)
        (demographicOps s now) db.audience_demographics
  · intro k
    simpa [persistSnapshot] using
      applyUpserts_idem_find acctKey mergeReplace (mergeReplace_key acctKey)
        mergeReplace_forget mergeReplace_idem (accountOps s now) db.ad_accounts k
  · intro k
    simpa [persistSnapshot] using
      applyUpserts_idem_find campKey mergeReplace (mergeReplace_key campKey)
        mergeReplace_forget mergeReplace_idem (campaignOps s now) db.campaigns k
  · intro k
    simpa [persistSnapshot] using
      applyUpserts_idem_find campDailyKey mergeReplace (mergeReplace_key campDailyKey)
        mergeReplace_forget mergeReplace_idem (campaignDailyOps s now)
        db.campaign_daily_metrics k
  · intro k
    simpa [persistSnapshot] using
      applyUpserts_idem_find creativeKey mergeCreative mergeCreative_key
        mergeCreative_forget mergeCreative_idem (creativeOps s now) db.creatives k
  · intro k
    simpa [persistSnapshot] using
      applyUpserts_idem_find demoKey mergeReplace (mergeReplace_key demoKey)
        mergeReplace_forget mergeReplace_idem (demographicOps s now)
        db.audience_demographics k
  · simp [persistSnapshot]
  · simp [persistSnapshot]

/-! ### C3 — upsert replace semantics -/

/-- C3 counterexample: the claim says the upsert overwrites every non-key
column for all five entity kinds "including every non-key column of Creative
rows".  Persisting a creative with `created_at = 100` and then the same
creative with `created_at = 200` leaves the stored `created_at` at 100: the
creatives upsert excludes `created_at` from its update set, so the stored
row is not the full replacement row the claim predicts. -/
theorem creative_created_at_kept_counterexample :
    ((persistSnapshot (fixSnapCreative 200) "T2"
        (persistSnapshot (fixSnapCreative 100) "T1" emptyDB)).creatives.map
      (fun r => r.created_at)) = [some 100] ∧
    ¬ ((persistSnapshot (fixSnapCreative 200) "T2"
          (persistSnapshot (fixSnapCreative 100) "T1" emptyDB)).creatives =
        [creativeRowOf 1 7 (fixCreative 200) "T2"]) := by
  constructor
  · decide
  · decide

/-- C3 (amended): the upsert overwrites every non-key column with the new
value for accounts, campaigns, campaign daily metrics and demographic
segments; for creatives it overwrites every non-key column except
`created_at`, which keeps the previously stored value (the incoming value is
used only on first insert).  Persisting account `{id 1, name "A"}` then
`{id 1, name "B"}` leaves exactly one account row, with name "B". -/
theorem upsert_replace_semantics (db : Database) (now : String) (dr : DateRangeSnap)
    (a : PAccount) (c : PCampaign) (cr : CreativeSnap) (d : DailySnap)
    (p : String) (g : SegSnap) :
    (findByKey acctKey a.id
        ((persistSnapshot (oneAccountSnap (withChildren a c cr d p g) dr) now
          db).ad_accounts) = some (accountRowOf a now)) ∧
    (findByKey campKey c.id
        ((persistSnapshot (oneAccountSnap (withChildren a c cr d p g) dr) now
          db).campaigns) = some (campaignRowOf a.id c now)) ∧
    (findByKey campDailyKey (c.id, d.date)
        ((persistSnapshot (oneAccountSnap (withChildren a c cr d p g) dr) now
          db).campaign_daily_metrics) = some (campaignDailyRowOf c.id d now)) ∧
    (findByKey demoKey (a.id, p, g.segment, dr.start)
        ((persistSnapshot (oneAccountSnap (withChildren a c cr d p g) dr) now
          db).audience_demographics) = some (demographicRowOf a.id p g dr now)) ∧
    (findByKey creativeKey cr.id
        ((persistSnapshot (oneAccountSnap (withChildren a c cr d p g) dr) now
          db).creatives) =
      some ((findByKey creativeKey cr.id db.creatives).elim
        (creativeRowOf a.id c.id cr now)
        (fun o => mergeCreative o (creativeRowOf a.id c.id cr now)))) ∧
    ((persistSnapshot (fixSnapAccount "B") "T2"
        (persistSnapshot (fixSnapAccount "A") "T1" emptyDB)).ad_accounts =
      [accountRowOf (fixAccount "B" []) "T2"]) := by
  refine ⟨?_, ?_, ?_, ?_, ?_, by decide⟩
  · rw [show (persistSnapshot (oneAccountSnap (withChildren a c cr d p g) dr) now
          db).ad_accounts =
        applyUpserts acctKey mergeReplace [accountRowOf a now] db.ad_accounts from by
      simp [persistSnapshot, accountOps, oneAccountSnap, withChildren] <;> rfl]
    rw [findByKey_applyUpserts acctKey mergeReplace (mergeReplace_key acctKey)]
    have hk : acctKey (accountRowOf a now) = a.id := rfl
    simp [List.filter_cons, hk, mergeRun, mergeReplace]
    cases findByKey acctKey a.id db.ad_accounts <;> rfl
  · rw [show (persistSnapshot (oneAccountSnap (withChildren a c cr d p g) dr) now
          db).campaigns =
        applyUpserts campKey mergeReplace [campaignRowOf a.id c now] db.campaigns from by
      simp [persistSnapshot, campaignOps, oneAccountSnap, withChildren] <;> rfl]
    rw [findByKey_applyUpserts campKey mergeReplace (mergeReplace_key campKey)]
    have hk : campKey (campaignRowOf a.id c now) = c.id := rfl
    simp [List.filter_cons, hk, mergeRun, mergeReplace]
    cases findByKey campKey c.id db.campaigns <;> rfl
  · rw [show (persistSnapshot (oneAccountSnap (withChildren a c cr d p g) dr) now
          db).campaign_daily_metrics =
        applyUpserts campDailyKey mergeReplace [campaignDailyRowOf c.id d now]
          db.campaign_daily_metrics from by
      simp [persistSnapshot, campaignDailyOps, oneAccountSnap, withChildren] <;> rfl]
    rw [findByKey_applyUpserts campDailyKey mergeReplace (mergeReplace_key campDailyKey)]
    have hk : campDailyKey (campaignDailyRowOf c.id d now) = (c.id, d.date) := rfl
    simp [List.filter_cons, hk, mergeRun, mergeReplace]
    cases findByKey campDailyKey (c.id, d.date) db.campaign_daily_metrics <;> rfl
  · rw [show (persistSnapshot (oneAccountSnap (withChildren a c cr d p g) dr) now
          db).audience_demographics =
        applyUpserts demoKey mergeReplace [demographicRowOf a.id p g dr now]
          db.audience_demographics from by
      simp [persistSnapshot, demographicOps, oneAccountSnap, withChildren] <;> rfl]
    rw [findByKey_applyUpserts demoKey mergeReplace (mergeReplace_key demoKey)]
    have hk : demoKey (demographicRowOf a.id p g dr now) = (a.id, p, g.segment, dr.start) :=
      rfl
    simp [List.filter_cons, hk, mergeRun, mergeReplace]
    cases findByKey demoKey (a.id, p, g.segment, dr.start) db.audience_demographics <;> rfl
  · rw [show (persistSnapshot (oneAccountSnap (withChildren a c cr d p g) dr) now
          db).creatives =
        applyUpserts creativeKey mergeCreative [creativeRowOf a.id c.id cr now]
          db.creatives from by
      simp [persistSnapshot, creativeOps, oneAccountSnap, withChildren] <;> rfl]
    rw [findByKey_applyUpserts creativeKey mergeCreative mergeCreative_key]
    have hk : creativeKey (creativeRowOf a.id c.id cr now) = cr.id := rfl
    simp [List.filter_cons, hk, mergeRun]

/-! ### C4 — creative daily metrics are never persisted -/

/-- C4: `persist_snapshot` issues upserts for accounts, campaigns, campaign
daily metrics, creatives and demographic segments, but no code path writes
`creative_daily_metrics`: the table is bit-for-bit unchanged by persist for
every snapshot, even when the snapshot carries creative daily metric rows
(concrete failing input: `fixSnapCreativeDaily`, whose single creative has
one daily metric row). -/
theorem creative_daily_metrics_never_written :
    (∀ (s : PSnapshot) (now : String) (db : Database),
      (persistSnapshot s now db).creative_daily_metrics = db.creative_daily_metrics) ∧
    ((persistSnapshot fixSnapCreativeDaily "T1" emptyDB).creative_daily_metrics = [] ∧
      (fixSnapCreativeDaily.accounts.map (fun a =>
        a.campaigns.map (fun c => c.creatives.map (fun cr =>
          cr.daily_metrics.length)))) = [[[1]]]) := by
  refine ⟨fun s now db => by simp [persistSnapshot], by simp [persistSnapshot, emptyDB],
    by decide⟩

/-! ### C5 — the freshness gate -/

theorem strHasSub_append_right (pat a b : String) (h : strHasSub pat a) :
    strHasSub pat (a ++ b) := by
  unfold strHasSub at h ⊢
  rw [show (a ++ b).toList = a.toList ++ b.toList from rfl]
  exact h.trans (List.prefix_append a.toList b.toList).isInfix

theorem strHasSub_append_left (pat a b : String) (h : strHasSub pat b) :
    strHasSub pat (a ++ b) := by
  unfold strHasSub at h ⊢
  rw [show (a ++ b).toList = a.toList ++ b.toList from rfl]
  exact h.trans (List.suffix_append a.toList b.toList).isInfix

theorem strHasSub_staleReason (elapsed ttl : Int) :
    strHasSub "ago" (staleReason elapsed ttl) := by
  unfold staleReason
  have h0 : strHasSub "ago" "m ago (ttl=" := by decide
  have h1 := strHasSub_append_left "ago" (toString elapsed) "m ago (ttl=" h0
  have h2 := strHasSub_append_left "ago" "last sync " (toString elapsed ++ "m ago (ttl=") h1
  have h3 := strHasSub_append_right "ago"
    ("last sync " ++ (toString elapsed ++ "m ago (ttl=")) (toString ttl) h2
  have h4 := strHasSub_append_right "ago"
    ("last sync " ++ (toString elapsed ++ "m ago (ttl=") ++ toString ttl) "m)" h3
  simpa [String.append_assoc] using h4

theorem strHasSub_freshReason (elapsed ttl : Int) :
    strHasSub "fresh" (freshReason elapsed ttl) := by
  unfold freshReason
  have h0 : strHasSub "fresh" "fresh (" := by decide
  have h1 := strHasSub_append_right "fresh" "fresh (" (toString elapsed) h0
  have h2 := strHasSub_append_right "fresh" ("fresh (" ++ toString elapsed)
    "m ago, ttl=" h1
  have h3 := strHasSub_append_right "fresh"
    ("fresh (" ++ toString elapsed ++ "m ago, ttl=") (toString ttl) h2
  have h4 := strHasSub_append_right "fresh"
    ("fresh (" ++ toString elapsed ++ "m ago, ttl=" ++ toString ttl) "m)" h3
  simpa [String.append_assoc] using h4

/-- C5: the freshness gate.  `force` yields `(true, reason)` with "force" in
the reason regardless of history; with no successful entry for the account
the gate fires with "no previous" in the reason; when the most recent
successful entry (maximal `finished_at`) is at least `ttl` minutes old the
gate fires with "ago" in the reason; otherwise it declines with "fresh" in
the reason.  Entries whose status is not `success` are never consulted, and
the configured default TTL is 240 minutes. -/
theorem should_sync_spec (entries : List SyncEntry) (acct : String) (ttl now : Int) :
    (shouldSync entries acct true ttl now = (true, "force=True") ∧
      strHasSub "force" (shouldSync entries acct true ttl now).2) ∧
    (lastSuccessFinishedAt entries acct = none →
      shouldSync entries acct false ttl now = (true, "no previous successful sync") ∧
      strHasSub "no previous" (shouldSync entries acct false ttl now).2) ∧
    (∀ f, lastSuccessFinishedAt entries acct = some f → ttl ≤ now - f →
      (shouldSync entries acct false ttl now).1 = true ∧
      strHasSub "ago" (shouldSync entries acct false ttl now).2) ∧
    (∀ f, lastSuccessFinishedAt entries acct = some f → now - f < ttl →
      (shouldSync entries acct false ttl now).1 = false ∧
      strHasSub "fresh" (shouldSync entries acct false ttl now).2) ∧
    (∀ e : SyncEntry, e.status ≠ "success" → ∀ force : Bool,
      shouldSync (e :: entries) acct force ttl now =
        shouldSync entries acct force ttl now) ∧
    defaultFreshnessTtl = 240 := by
  refine ⟨⟨rfl, (by decide : strHasSub "force" "force=True")⟩, ?_, ?_, ?_, ?_, rfl⟩
  · intro h
    refine ⟨by simp [shouldSync, h], ?_⟩
    simp only [shouldSync, h]
    decide
  · intro f hf hstale
    constructor
    · simp [shouldSync, hf, hstale]
    · simp only [shouldSync, hf, if_neg, Bool.false_eq_true, if_false]
      rw [if_pos hstale]
      exact strHasSub_staleReason (now - f) ttl
  · intro f hf hfresh
    constructor
    · simp [shouldSync, hf, not_le.mpr hfresh]
    · simp only [shouldSync, hf, if_neg, Bool.false_eq_true, if_false]
      rw [if_neg (not_le.mpr hfresh)]
      exact strHasSub_freshReason (now - f) ttl
  · intro e he force
    have : lastSuccessFinishedAt (e :: entries) acct = lastSuccessFinishedAt entries acct := by
      simp [lastSuccessFinishedAt, List.filter_cons, he]
    simp [shouldSync, this]

/-- Witness for `should_sync_spec` at concrete inputs: an empty log fires with
"no previous"; a success finished 300 minutes ago with ttl 240 fires with
"ago"; the same entry 100 minutes ago declines with "fresh"; a failed entry
is ignored by the gate. -/
theorem should_sync_spec_witness :
    (shouldSync [] "x" false 240 300 = (true, "no previous successful sync")) ∧
    ((shouldSync [⟨"x", "success", 0⟩] "x" false 240 300).1 = true ∧
      strHasSub "ago" (shouldSync [⟨"x", "success", 0⟩] "x" false 240 300).2) ∧
    ((shouldSync [⟨"x", "success", 0⟩] "x" false 240 100).1 = false ∧
      strHasSub "fresh" (shouldSync [⟨"x", "success", 0⟩] "x" false 240 100).2) ∧
    (shouldSync [⟨"x", "failed", 50⟩] "x" false 240 300 =
      shouldSync [] "x" false 240 300) :=
  ⟨((should_sync_spec [] "x" 240 300).2.1 (by decide)).1,
   ⟨((should_sync_spec [⟨"x", "success", 0⟩] "x" 240 300).2.2.1 0 (by decide)
      (by decide)).1,
    ((should_sync_spec [⟨"x", "success", 0⟩] "x" 240 300).2.2.1 0 (by decide)
      (by decide)).2⟩,
   ⟨((should_sync_spec [⟨"x", "success", 0⟩] "x" 240 100).2.2.2.1 0 (by decide)
      (by decide)).1,
    ((should_sync_spec [⟨"x", "success", 0⟩] "x" 240 100).2.2.2.1 0 (by decide)
      (by decide)).2⟩,
   (should_sync_spec [] "x" 240 300).2.2.2.2.1 ⟨"x", "failed", 50⟩ (by decide) false⟩

/-! ### C9 — URN resolution -/

/-- C9: URN resolution is total (both resolvers are total Lean functions by
construction) and deterministic; `urn:li:seniority:6` resolves to
"Director"; any identifier with fewer than 4 colon-separated segments
resolves to the empty string; a known type with an unknown value (e.g.
`urn:li:seniority:999`) resolves to the empty string. -/
theorem resolve_urn_spec :
    resolveUrn "urn:li:seniority:6" = "Director" ∧
    resolveUrnLocally "urn:li:seniority:6" = "Director" ∧
    resolveUrn "urn:li:seniority:999" = "" ∧
    resolveUrnLocally "urn:li:seniority:999" = "" ∧
    (∀ s : String, (splitColon s).length < 4 →
      resolveUrn s = "" ∧ resolveUrnLocally s = "") := by
  refine ⟨by decide, by decide, by decide, by decide, ?_⟩
  intro s hlen
  cases hsp : splitColon s with
  | nil => exact ⟨by simp [resolveUrn, hsp], by simp [resolveUrnLocally, hsp]⟩
  | cons a t1 =>
    cases t1 with
    | nil => exact ⟨by simp [resolveUrn, hsp], by simp [resolveUrnLocally, hsp]⟩
    | cons b t2 =>
      cases t2 with
      | nil => exact ⟨by simp [resolveUrn, hsp], by simp [resolveUrnLocally, hsp]⟩
      | cons c t3 =>
        cases t3 with
        | nil => exact ⟨by simp [resolveUrn, hsp], by simp [resolveUrnLocally, hsp]⟩
        | cons d t4 =>
          rw [hsp] at hlen
          simp at hlen
          omega

/-- Witness for `resolve_urn_spec`: `urn:li` has 2 colon-separated segments
and resolves to the empty string. -/
theorem resolve_urn_spec_witness :
    (splitColon "urn:li").length < 4 ∧
    resolveUrn "urn:li" = "" ∧ resolveUrnLocally "urn:li" = "" :=
  ⟨by decide, (resolve_urn_spec.2.2.2.2 "urn:li" (by decide)).1,
    (resolve_urn_spec.2.2.2.2 "urn:li" (by decide)).2⟩

/-! ### Rounding lemmas -/

theorem rhe_intCast (n : ℤ) : rhe (n : ℚ) = n := by
  unfold rhe
  simp

theorem roundTo_exact (d : ℕ) (q : ℚ) (n : ℤ) (h : q * 10 ^ d = (n : ℚ)) :
    roundTo d q = (n : ℚ) / 10 ^ d := by
  unfold roundTo
  rw [h, rhe_intCast]

theorem abs_rhe_sub_le (q : ℚ) : |(rhe q : ℚ) - q| ≤ 1 / 2 := by
  have h0 : (⌊q⌋ : ℚ) ≤ q := Int.floor_le q
  have h1 : q < ⌊q⌋ + 1 := Int.lt_floor_add_one q
  unfold rhe
  split_ifs with hc1 hc2 hc3 <;> rw [abs_le] <;> constructor <;> push_cast <;> linarith

theorem abs_roundTo_sub_le (d : ℕ) (q : ℚ) :
    |roundTo d q - q| ≤ 1 / (2 * 10 ^ d) := by
  have hpow : (0 : ℚ) < 10 ^ d := by positivity
  have h := abs_rhe_sub_le (q * 10 ^ d)
  have key : roundTo d q - q = ((rhe (q * 10 ^ d) : ℚ) - q * 10 ^ d) / 10 ^ d := by
    unfold roundTo
    field_simp
    ring
  rw [key, abs_div, abs_of_pos hpow, div_le_iff hpow]
  have h2 : (1 : ℚ) / (2 * 10 ^ d) * 10 ^ d = 1 / 2 := by
    field_simp
    ring
  rw [h2]
  exact h

/-! ### C6 — the metric aggregator -/

theorem foldl_addRow (rows : List MetricRow) :
    ∀ a : AggSums,
      rows.foldl addRow a =
        ⟨a.impressions + (rows.map (fun r => r.impressions)).sum,
         a.clicks + (rows.map (fun r => r.clicks)).sum,
         a.spend + (rows.map (fun r => costToRat r.cost)).sum,
         a.landing_page_clicks + (rows.map (fun r => r.landingPageClicks)).sum,
         a.conversions + (rows.map (fun r => r.externalWebsiteConversions)).sum,
         a.likes + (rows.map (fun r => r.likes)).sum,
         a.comments + (rows.map (fun r => r.comments)).sum,
         a.shares + (rows.map (fun r => r.shares)).sum,
         a.follows + (rows.map (fun r => r.follows)).sum,
         a.leads + (rows.map (fun r => r.oneClickLeads)).sum,
         a.opens + (rows.map (fun r => r.opens)).sum,
         a.sends + (rows.map (fun r => r.sends)).sum⟩ := by
  induction rows with
  | nil => intro a; cases a; simp
  | cons r rest ih =>
    intro a
    simp [List.foldl_cons, ih, addRow, add_assoc]

theorem sumRows_spec (rows : List MetricRow) :
    sumRows rows =
      ⟨(rows.map (fun r => r.impressions)).sum,
       (rows.map (fun r => r.clicks)).sum,
       (rows.map (fun r => costToRat r.cost)).sum,
       (rows.map (fun r => r.landingPageClicks)).sum,
       (rows.map (fun r => r.externalWebsiteConversions)).sum,
       (rows.map (fun r => r.likes)).sum,
       (rows.map (fun r => r.comments)).sum,
       (rows.map (fun r => r.shares)).sum,
       (rows.map (fun r => r.follows)).sum,
       (rows.map (fun r => r.oneClickLeads)).sum,
       (rows.map (fun r => r.opens)).sum,
       (rows.map (fun r => r.sends)).sum⟩ := by
  unfold sumRows
  rw [foldl_addRow rows zeroSums]
  simp [zeroSums]

theorem costToRat_parsed (s : String) (p : Int × Nat) (hs : ¬ (s = ""))
    (hp : parseDecimal s = some p) : costToRat (.str s) = fixedToRat p := by
  simp [costToRat, hs, hp]

theorem cost_ten : costToRat (.str "10.00") = 10 := by
  have hp : parseDecimal "10.00" = some (1000, 2) := by decide
  rw [costToRat_parsed "10.00" (1000, 2) (by decide) hp]
  unfold fixedToRat
  norm_num

theorem cost_twenty : costToRat (.str "20.00") = 20 := by
  have hp : parseDecimal "20.00" = some (2000, 2) := by decide
  rw [costToRat_parsed "20.00" (2000, 2) (by decide) hp]
  unfold fixedToRat
  norm_num

/-- C6: the aggregator sums exactly the 12 raw counters over all rows and
only then derives the ratios with zero guards (`ctr` to 4 decimals, `cpc`,
`cpm`, `cpl` and `spend` to 2); cost fields arriving as string, numeric,
null or absent are coerced to their numeric value with null/absent/empty as
0; and the two-row example aggregates to impressions 3000, clicks 150,
spend 30, ctr 5, cpc 0.2, cpm 10. -/
theorem aggregate_metrics_spec :
    (∀ rows : List MetricRow,
      (aggregateMetrics rows).impressions = (rows.map (fun r => r.impressions)).sum ∧
      (aggregateMetrics rows).clicks = (rows.map (fun r => r.clicks)).sum ∧
      (aggregateMetrics rows).landing_page_clicks =
        (rows.map (fun r => r.landingPageClicks)).sum ∧
      (aggregateMetrics rows).conversions =
        (rows.map (fun r => r.externalWebsiteConversions)).sum ∧
      (aggregateMetrics rows).likes = (rows.map (fun r => r.likes)).sum ∧
      (aggregateMetrics rows).comments = (rows.map (fun r => r.comments)).sum ∧
      (aggregateMetrics rows).shares = (rows.map (fun r => r.shares)).sum ∧
      (aggregateMetrics rows).follows = (rows.map (fun r => r.follows)).sum ∧
      (aggregateMetrics rows).leads = (rows.map (fun r => r.oneClickLeads)).sum ∧
      (aggregateMetrics rows).opens = (rows.map (fun r => r.opens)).sum ∧
      (aggregateMetrics rows).sends = (rows.map (fun r => r.sends)).sum ∧
      (aggregateMetrics rows).spend =
        roundTo 2 ((rows.map (fun r => costToRat r.cost)).sum) ∧
      (aggregateMetrics rows).ctr =
        (if (rows.map (fun r => r.impressions)).sum = 0 then 0
         else roundTo 4 (((rows.map (fun r => r.clicks)).sum : ℚ) /
           ((rows.map (fun r => r.impressions)).sum : ℚ) * 100)) ∧
      (aggregateMetrics rows).cpc =
        (if (rows.map (fun r => r.clicks)).sum = 0 then 0
         else roundTo 2 (((rows.map (fun r => costToRat r.cost)).sum) /
           ((rows.map (fun r => r.clicks)).sum : ℚ))) ∧
      (aggregateMetrics rows).cpm =
        (if (rows.map (fun r => r.impressions)).sum = 0 then 0
         else roundTo 2 (((rows.map (fun r => costToRat r.cost)).sum) /
           ((rows.map (fun r => r.impressions)).sum : ℚ) * 1000)) ∧
      (aggregateMetrics rows).cpl =
        (if (rows.map (fun r => r.externalWebsiteConversions)).sum = 0 then 0
         else roundTo 2 (((rows.map (fun r => costToRat r.cost)).sum) /
           ((rows.map (fun r => r.externalWebsiteConversions)).sum : ℚ)))) ∧
    (costToRat .absent = 0 ∧ costToRat .null = 0 ∧ costToRat (.str "") = 0 ∧
      (∀ q : ℚ, costToRat (.num q) = q) ∧
      (∀ (s : String) (p : Int × Nat), ¬ (s = "") → parseDecimal s = some p →
        costToRat (.str s) = fixedToRat p)) ∧
    aggregateMetrics [fixMetricRow 1000 50 "10.00", fixMetricRow 2000 100 "20.00"] =
      ⟨3000, 150, 30, 0, 0, 0, 0, 0, 0, 0, 0, 0, 5, 1 / 5, 10, 0⟩ := by
  refine ⟨?_, ⟨rfl, rfl, rfl, fun q => rfl, costToRat_parsed⟩, ?_⟩
  · intro rows
    simp [aggregateMetrics, sumRows_spec, Function.comp_def]
  · have hsum : sumRows [fixMetricRow 1000 50 "10.00", fixMetricRow 2000 100 "20.00"] =
        ⟨3000, 150, 30, 0, 0, 0, 0, 0, 0, 0, 0, 0⟩ := by
      rw [sumRows_spec]
      simp [fixMetricRow, cost_ten, cost_twenty]
      norm_num
    simp only [aggregateMetrics, hsum]
    have hspend : roundTo 2 (30 : ℚ) = 30 := by
      rw [roundTo_exact 2 30 3000 (by norm_num)]
      norm_num
    have hctr : roundTo 4 ((150 : ℚ) / 3000 * 100) = 5 := by
      rw [roundTo_exact 4 _ 50000 (by norm_num)]
      norm_num
    have hcpc : roundTo 2 ((30 : ℚ) / 150) = 1 / 5 := by
      rw [roundTo_exact 2 _ 20 (by norm_num)]
      norm_num
    have hcpm : roundTo 2 ((30 : ℚ) / 3000 * 1000) = 10 := by
      rw [roundTo_exact 2 _ 1000 (by norm_num)]
      norm_num
    simp [hspend, hctr, hcpc, hcpm]

/-! ### C1 — validation is a non-fatal filter -/

/-- C1: for every batch, `_validate_list` returns exactly the records that
pass validation, unchanged (the result is the filtered batch and a sublist
of the input — records pass through identically, invalid ones are dropped;
the function is total, so it never raises).  On the concrete account batch
with a missing id in the middle, assembly returns exactly the accounts with
ids 1 and 3. -/
theorem validate_list_filters (ρ : Type) (valid : ρ → Bool) (batch : List ρ) :
    (validateList valid batch = batch.filter valid ∧
      (validateList valid batch).Sublist batch) ∧
    ((assembleSnapshot
        [fixRawAccount (some 1) "Good", fixRawAccount none "NoId",
          fixRawAccount (some 3) "Good2"]
        [] [] [] [] (.flat []) fixDate1 fixDate2 "2024-04-01T00:00:00Z").accounts.map
      (fun a => a.id)) = [some 1, some 3] := by
  refine ⟨?_, by decide⟩
  have he : validateList valid batch = batch.filter valid := by
    induction batch with
    | nil => rfl
    | cons r rest ih => by_cases h : valid r <;> simp [validateList, h, ih]
  exact ⟨he, he ▸ batch.filter_sublist⟩

/-! ### C8 — campaign-to-account assignment -/

theorem lookup_insertAppend {κ ρ : Type} [DecidableEq κ] [BEq κ] [LawfulBEq κ]
    (k i : κ) (v : ρ) (m : List (κ × List ρ)) :
    (insertAppend k v m).lookup i =
      if i = k then some (((m.lookup k).getD []) ++ [v]) else m.lookup i := by
  induction m with
  | nil =>
    by_cases hik : i = k
    · subst hik
      simp [insertAppend, List.lookup]
    · have hb : (i == k) = false := beq_eq_false_iff_ne.mpr hik
      simp [insertAppend, List.lookup, hb, hik]
  | cons p m ih =>
    by_cases hpk : p.1 = k
    · by_cases hik : i = k
      · have hb : (i == p.1) = true := beq_iff_eq.mpr (hik.trans hpk.symm)
        have hbk : (k == p.1) = true := beq_iff_eq.mpr hpk.symm
        simp [insertAppend, hpk, List.lookup, hb, hbk, hik]
      · have hb : (i == p.1) = false :=
          beq_eq_false_iff_ne.mpr (fun hh => hik (hh.trans hpk))
        have hbik : (i == k) = false := beq_eq_false_iff_ne.mpr hik
        simp [insertAppend, hpk, List.lookup, hb, hbik, hik]
    · by_cases hip : i = p.1
      · have hik : ¬ i = k := fun hh => hpk (hip ▸ hh)
        have hb : (i == p.1) = true := beq_iff_eq.mpr hip
        simp [insertAppend, hpk, List.lookup, hb, hik]
      · have hb : (i == p.1) = false := beq_eq_false_iff_ne.mpr hip
        have hbk : (k == p.1) = false :=
          beq_eq_false_iff_ne.mpr (fun hh => hpk hh.symm)
        simp [insertAppend, hpk, List.lookup, hb, hbk, ih]

theorem lookup_groupFold_aux {κ ρ : Type} [DecidableEq κ] [BEq κ] [LawfulBEq κ]
    (key : ρ → Option κ) (l : List ρ) :
    ∀ (m : List (κ × List ρ)) (i : κ),
      (l.foldl
        (fun m r => match key r with | none => m | some k => insertAppend k r m)
        m).lookup i =
        (match m.lookup i, l.filter (fun r => key r = some i) with
         | some g, f => some (g ++ f)
         | none, [] => none
         | none, f => some f) := by
  induction l with
  | nil =>
    intro m i
    rw [List.foldl_nil]
    cases h : m.lookup i with
    | none => rfl
    | some g => simp
  | cons r l ih =>
    intro m i
    rw [List.foldl_cons]
    cases hk : key r with
    | none =>
      have hf : (List.filter (fun r2 => decide (key r2 = some i)) (r :: l)) =
          l.filter (fun r2 => key r2 = some i) := by
        simp [List.filter_cons, hk]
      rw [ih, hf]
    | some k =>
      rw [ih]
      by_cases hik : k = i
      · subst hik
        have hf : (List.filter (fun r2 => decide (key r2 = some k)) (r :: l)) =
            r :: l.filter (fun r2 => key r2 = some k) := by
          simp [List.filter_cons, hk]
        rw [hf, lookup_insertAppend]
        simp only [if_pos rfl]
        cases hm : m.lookup k <;> simp
      · have hf : (List.filter (fun r2 => decide (key r2 = some i)) (r :: l)) =
            l.filter (fun r2 => key r2 = some i) := by
          have hne : ¬ (key r = some i) := by
            rw [hk]
            exact fun hh => hik (Option.some.inj hh)
          simp [List.filter_cons, hne]
        have hne2 : ¬ (i = k) := fun hh => hik hh.symm
        rw [hf, lookup_insertAppend, if_neg hne2]

theorem campaignsByAccount_lookup (l : List RawCampaign) (i : Int) :
    (campaignsByAccount l).lookup i =
      (if l.filter (fun c => c.account_tag = some i) = [] then none
       else some (l.filter (fun c => c.account_tag = some i))) := by
  unfold campaignsByAccount groupFold
  rw [lookup_groupFold_aux (fun c => c.account_tag) l [] i]
  cases hf : l.filter (fun c => c.account_tag = some i) with
  | nil => simp [List.lookup, hf]
  | cons x xs => simp [List.lookup, hf]

/-- C8 (amended): during assembly each validated account is assigned the
campaigns carried by the grouped `_account_id` index at its id — exactly the
campaigns tagged with that id, in input order — and falls back to the entire
campaign list exactly when *no campaign in the batch is tagged with this
account's id* (the fallback is per account, not only when no campaign
anywhere carries a tag). -/
theorem campaign_assignment_spec (accounts : List RawAccount)
    (campaignsList : List RawCampaign) (creativesList : List RawCreative)
    (campMetrics creatMetrics : List MetricRow) (demoData : DemoData)
    (dateStart dateEnd : PyDate) (nowIso : String) :
    ((assembleSnapshot accounts campaignsList creativesList campMetrics
        creatMetrics demoData dateStart dateEnd nowIso).accounts.map
      (fun a => a.campaigns.map (fun c => c.id))) =
      ((validateList accountValid accounts).map (fun a =>
        (campaignsForAccount (validateList campaignValid campaignsList)
          (campaignsByAccount (validateList campaignValid campaignsList)) a.id).map
        (fun c => c.id))) ∧
    (∀ (l : List RawCampaign) (aid : Int),
      campaignsForAccount l (campaignsByAccount l) (some aid) =
        (if l.filter (fun c => c.account_tag = some aid) = [] then l
         else l.filter (fun c => c.account_tag = some aid))) := by
  constructor
  · simp only [assembleSnapshot, assembleAccount, List.map_map, Function.comp_def]
    apply List.map_congr_left
    intro a _
    apply List.map_congr_left
    intro c _
    simp [assembleCampaign]
  · intro l aid
    rw [show campaignsForAccount l (campaignsByAccount l) (some aid) =
      (List.lookup aid (campaignsByAccount l)).getD l from rfl]
    rw [campaignsByAccount_lookup]
    by_cases hnil : l.filter (fun c => c.account_tag = some aid) = [] <;>
      simp [hnil]

/-- C8 counterexample for the claim as stated: with accounts 1 and 2 and a
single campaign tagged `_account_id = 2`, account 1 still receives that
campaign (the whole-list fallback applies per account even though a
campaign in the batch carries a tag, and the campaign is tagged to a
different account). -/
theorem campaign_fallback_counterexample :
    ((assembleSnapshot [fixRawAccount (some 1) "A1", fixRawAccount (some 2) "A2"]
        [fixRawCampaign 10 (some 2)] [] [] [] (.flat []) fixDate1 fixDate2
        "2024-04-01T00:00:00Z").accounts.map
      (fun a => (a.id, a.campaigns.map (fun c => c.id)))) =
      [(some 1, [some 10]), (some 2, [some 10])] ∧
    (fixRawCampaign 10 (some 2)).account_tag = some 2 := by
  exact ⟨by decide, rfl⟩

/-! ### Stable sort lemmas (for the top-N demographics) -/

theorem stableInsertBy_perm {α : Type} (before : α → α → Bool) (r : α)
    (acc : List α) : List.Perm (stableInsertBy before r acc) (r :: acc) := by
  induction acc with
  | nil => exact List.Perm.refl _
  | cons x xs ih =>
    by_cases h : before r x
    · simp [stableInsertBy, h]
    · simp only [stableInsertBy, h, if_false, Bool.false_eq_true]
      exact (ih.cons x).trans (List.Perm.swap r x xs)

theorem stableSortBy_aux_perm {α : Type} (before : α → α → Bool) (l : List α) :
    ∀ acc, List.Perm (l.foldl (fun acc r => stableInsertBy before r acc) acc)
      (acc ++ l) := by
  induction l with
  | nil => intro acc; simp
  | cons r l ih =>
    intro acc
    rw [List.foldl_cons]
    refine (ih (stableInsertBy before r acc)).trans ?_
    refine (List.Perm.append_right l (stableInsertBy_perm before r acc)).trans ?_
    exact List.perm_middle.symm

theorem stableSortBy_perm {α : Type} (before : α → α → Bool) (l : List α) :
    List.Perm (stableSortBy before l) l := by
  simpa using stableSortBy_aux_perm before l []

theorem stableInsert_sorted_imp (r : DemoRawRow) :
    ∀ acc : List DemoRawRow,
      List.Pairwise (fun a b => b.impressions ≤ a.impressions) acc →
      List.Pairwise (fun a b => b.impressions ≤ a.impressions)
        (stableInsertBy befImp r acc) := by
  intro acc
  induction acc with
  | nil => intro _; simp [stableInsertBy]
  | cons x xs ih =>
    intro h
    rcases List.pairwise_cons.mp h with ⟨hx, hxs⟩
    by_cases hc : befImp r x
    · have hlt : x.impressions < r.impressions := by simpa [befImp] using hc
      simp only [stableInsertBy, hc, if_true]
      refine List.pairwise_cons.mpr ⟨?_, h⟩
      intro y hy
      rcases List.mem_cons.mp hy with rfl | hy2
      · omega
      · have := hx y hy2
        omega
    · have hle : r.impressions ≤ x.impressions := by
        have : ¬ x.impressions < r.impressions := by simpa [befImp] using hc
        omega
      simp only [stableInsertBy, hc, if_false, Bool.false_eq_true]
      refine List.pairwise_cons.mpr ⟨?_, ih hxs⟩
      intro y hy
      have hy2 := (stableInsertBy_perm befImp r xs).mem_iff.mp hy
      rcases List.mem_cons.mp hy2 with rfl | hy3
      · exact hle
      · exact hx y hy3

theorem stableInsert_filter_imp (v : Int) (r : DemoRawRow) :
    ∀ acc : List DemoRawRow,
      List.Pairwise (fun a b => b.impressions ≤ a.impressions) acc →
      (stableInsertBy befImp r acc).filter (fun x => x.impressions = v) =
        (if r.impressions = v then
          acc.filter (fun x => x.impressions = v) ++ [r]
         else acc.filter (fun x => x.impressions = v)) := by
  intro acc
  induction acc with
  | nil =>
    intro _
    by_cases hv : r.impressions = v <;> simp [stableInsertBy, List.filter_cons, hv]
  | cons x xs ih =>
    intro h
    rcases List.pairwise_cons.mp h with ⟨hx, hxs⟩
    by_cases hc : befImp r x
    · have hlt : x.impressions < r.impressions := by simpa [befImp] using hc
      by_cases hv : r.impressions = v
      · have hnil : (x :: xs).filter (fun y => y.impressions = v) = [] := by
          rw [List.filter_eq_nil_iff]
          intro y hy
          simp only [decide_eq_true_eq]
          rcases List.mem_cons.mp hy with rfl | hy2
          · omega
          · have := hx y hy2
            omega
        simp [stableInsertBy, hc, List.filter_cons, hv, hnil]
      · simp [stableInsertBy, hc, List.filter_cons, hv]
    · have ih2 := ih hxs
      by_cases hpx : x.impressions = v <;> by_cases hv : r.impressions = v <;>
        simp [stableInsertBy, hc, List.filter_cons, hpx, hv, ih2]

theorem sortImp_aux (l : List DemoRawRow) :
    ∀ acc, List.Pairwise (fun a b => b.impressions ≤ a.impressions) acc →
      List.Pairwise (fun a b => b.impressions ≤ a.impressions)
        (l.foldl (fun acc r => stableInsertBy befImp r acc) acc) ∧
      (∀ v : Int,
        (l.foldl (fun acc r => stableInsertBy befImp r acc) acc).filter
            (fun x => x.impressions = v) =
          acc.filter (fun x => x.impressions = v) ++
            l.filter (fun x => x.impressions = v)) := by
  induction l with
  | nil =>
    intro acc h
    exact ⟨h, fun v => by simp⟩
  | cons r l ih =>
    intro acc h
    simp only [List.foldl_cons]
    have hins := stableInsert_sorted_imp r acc h
    rcases ih (stableInsertBy befImp r acc) hins with ⟨h1, h2⟩
    refine ⟨h1, ?_⟩
    intro v
    rw [h2 v, stableInsert_filter_imp v r acc h, List.filter_cons]
    by_cases hv : r.impressions = v <;> simp [hv]

theorem sortByImpressionsDesc_sorted (l : List DemoRawRow) :
    List.Pairwise (fun a b => b.impressions ≤ a.impressions)
      (sortByImpressionsDesc l) :=
  (sortImp_aux l [] List.Pairwise.nil).1

theorem sortByImpressionsDesc_filter (l : List DemoRawRow) (v : Int) :
    (sortByImpressionsDesc l).filter (fun x => x.impressions = v) =
      l.filter (fun x => x.impressions = v) := by
  simpa using (sortImp_aux l [] List.Pairwise.nil).2 v

theorem sortByImpressionsDesc_perm (l : List DemoRawRow) :
    List.Perm (sortByImpressionsDesc l) l :=
  stableSortBy_perm befImp l

/-! ### C7 — top-N demographic truncation -/

/-- C7: for every pivot's rows, `_top_demographics` keeps exactly the top 10
segments ranked by impressions descending (fewer only when fewer rows
exist): the output has length `min 10 n`, is sorted descending by
impressions, and is the image of a split `rows ~ kept ++ dropped` where
every dropped row has at most the impressions of every kept row and rows of
equal impressions keep their original relative order (the stable-sort
filter identity).  Every demographics list of an assembled snapshot is the
output of `topDemographics` with N = 10.  On the 15-row fixture with
distinct impressions the list has exactly 10 entries sorted descending. -/
theorem top_demographics_spec :
    (∀ (rows : List DemoRawRow) (urns : List (String × String)),
      (topDemographics rows urns 10).length = min 10 rows.length ∧
      List.Pairwise (fun a b => b.impressions ≤ a.impressions)
        (topDemographics rows urns 10) ∧
      (∃ kept dropped : List DemoRawRow,
        List.Perm rows (kept ++ dropped) ∧
        topDemographics rows urns 10 =
          kept.map (mkSegSnap urns ((rows.map (fun r => r.impressions)).sum)) ∧
        kept.length = min 10 rows.length ∧
        (∀ x ∈ kept, ∀ y ∈ dropped, y.impressions ≤ x.impressions) ∧
        (∀ v : Int,
          (kept ++ dropped).filter (fun x => x.impressions = v) =
            rows.filter (fun x => x.impressions = v)))) ∧
    (∀ (accounts : List RawAccount) (campaignsList : List RawCampaign)
        (creativesList : List RawCreative)
        (campMetrics creatMetrics : List MetricRow) (demoData : DemoData)
        (dateStart dateEnd : PyDate) (nowIso : String),
      ∀ acct ∈ (assembleSnapshot accounts campaignsList creativesList campMetrics
          creatMetrics demoData dateStart dateEnd nowIso).accounts,
        ∀ pv ∈ acct.audience_demographics,
          ∃ (rows : List DemoRawRow) (urns : List (String × String)),
            pv.2 = topDemographics rows urns 10) ∧
    ((topDemographics fixDemoRows15 [] 10).length = 10 ∧
      List.Pairwise (fun a b => b.impressions ≤ a.impressions)
        (topDemographics fixDemoRows15 [] 10)) := by
  have main : ∀ (rows : List DemoRawRow) (urns : List (String × String)),
      (topDemographics rows urns 10).length = min 10 rows.length ∧
      List.Pairwise (fun a b => b.impressions ≤ a.impressions)
        (topDemographics rows urns 10) ∧
      (∃ kept dropped : List DemoRawRow,
        List.Perm rows (kept ++ dropped) ∧
        topDemographics rows urns 10 =
          kept.map (mkSegSnap urns ((rows.map (fun r => r.impressions)).sum)) ∧
        kept.length = min 10 rows.length ∧
        (∀ x ∈ kept, ∀ y ∈ dropped, y.impressions ≤ x.impressions) ∧
        (∀ v : Int,
          (kept ++ dropped).filter (fun x => x.impressions = v) =
            rows.filter (fun x => x.impressions = v))) := by
    intro rows urns
    have hlen : (sortByImpressionsDesc rows).length = rows.length :=
      (sortByImpressionsDesc_perm rows).length_eq
    have hsorted := sortByImpressionsDesc_sorted rows
    have hsum : ((sortByImpressionsDesc rows).map (fun r => r.impressions)).sum =
        (rows.map (fun r => r.impressions)).sum :=
      ((sortByImpressionsDesc_perm rows).map (fun r => r.impressions)).sum_eq
    have htop : topDemographics rows urns 10 =
        ((sortByImpressionsDesc rows).take 10).map
          (mkSegSnap urns ((rows.map (fun r => r.impressions)).sum)) := by
      rw [show topDemographics rows urns 10 =
        ((sortByImpressionsDesc rows).take 10).map
          (mkSegSnap urns
            (((sortByImpressionsDesc rows).map (fun r => r.impressions)).sum))
        from rfl, hsum]
    have hlentake : ((sortByImpressionsDesc rows).take 10).length =
        min 10 rows.length := by
      rw [List.length_take, hlen]
    refine ⟨?_, ?_, ?_⟩
    · rw [htop, List.length_map, hlentake]
    · rw [htop]
      rw [List.pairwise_map]
      have : List.Pairwise (fun a b => b.impressions ≤ a.impressions)
          ((sortByImpressionsDesc rows).take 10) :=
        hsorted.sublist (List.take_sublist 10 _)
      exact this
    · refine ⟨(sortByImpressionsDesc rows).take 10,
        (sortByImpressionsDesc rows).drop 10, ?_, htop, hlentake, ?_, ?_⟩
      · rw [List.take_append_drop]
        exact (sortByImpressionsDesc_perm rows).symm
      · have h2 := hsorted
        rw [← List.take_append_drop 10 (sortByImpressionsDesc rows)] at h2
        have h3 := (List.pairwise_append.mp h2).2.2
        intro x hx y hy
        exact h3 x hx y hy
      · intro v
        rw [List.take_append_drop]
        exact sortByImpressionsDesc_filter rows v
  refine ⟨main, ?_, ?_, ?_⟩
  · intro accounts campaignsList creativesList campMetrics creatMetrics demoData
      dateStart dateEnd nowIso acct hacct pv hpv
    simp only [assembleSnapshot] at hacct
    rcases List.mem_map.mp hacct with ⟨a, _, rfl⟩
    simp only [assembleAccount] at hpv
    rcases List.mem_map.mp hpv with ⟨p, _, rfl⟩
    exact ⟨p.2, _, rfl⟩
  · have h := (main fixDemoRows15 []).1
    rw [h]
    decide
  · exact (main fixDemoRows15 []).2.1

/-! ### C10 — share_of_impressions -/

theorem sum_map_add_const {α : Type} (f : α → ℚ) (c : ℚ) (l : List α) :
    (l.map (fun x => f x + c)).sum = (l.map f).sum + l.length * c := by
  induction l with
  | nil => simp
  | cons x xs ih =>
    simp [ih]
    ring

theorem roundTo_le_add (d : ℕ) (q : ℚ) : roundTo d q ≤ q + 1 / (2 * 10 ^ d) := by
  have h := (abs_le.mp (abs_roundTo_sub_le d q)).2
  linarith

/-- C10 (amended): each retained segment's `share_of_impressions` is its
impressions divided by the total over ALL rows of the pivot (including rows
cut by the top-10 truncation), times 100, rounded to 1 decimal, 0 when the
total is 0.  The retained shares sum to at most 100 + k/20 (k = number of
retained segments, so at most 100.5): the exact shares sum to at most 100
and each per-segment rounding moves a share by at most 0.05 — the rounded
sum itself can exceed 100, see the counterexample.  With more than 10
segments of nonzero impressions the sum can be strictly below 100 (the
11-row fixture sums to 95). -/
theorem share_of_impressions_spec (rows : List DemoRawRow)
    (urns : List (String × String)) (hnn : ∀ r ∈ rows, 0 ≤ r.impressions) :
    ((topDemographics rows urns 10).map (fun s => s.share_of_impressions) =
      ((sortByImpressionsDesc rows).take 10).map (fun r =>
        if (rows.map (fun r2 => r2.impressions)).sum = 0 then 0
        else roundTo 1 ((r.impressions : ℚ) /
          (((rows.map (fun r2 => r2.impressions)).sum : Int) : ℚ) * 100))) ∧
    (((topDemographics rows urns 10).map (fun s => s.share_of_impressions)).sum ≤
      100 + ((topDemographics rows urns 10).length : ℚ) * (1 / 20)) ∧
    (((topDemographics rows urns 10).map (fun s => s.share_of_impressions)).sum ≤
      201 / 2) ∧
    (((topDemographics fixDemoRows11 [] 10).map
        (fun s => s.share_of_impressions)).sum = 95 ∧
      ((topDemographics fixDemoRows11 [] 10).map
        (fun s => s.share_of_impressions)).sum < 100 ∧
      fixDemoRows11.length = 11 ∧
      (∀ r ∈ fixDemoRows11, 0 < r.impressions)) := by
  have hform : ∀ (rows2 : List DemoRawRow) (urns2 : List (String × String)),
      (topDemographics rows2 urns2 10).map (fun s => s.share_of_impressions) =
        ((sortByImpressionsDesc rows2).take 10).map (fun r =>
          if (rows2.map (fun r2 => r2.impressions)).sum = 0 then 0
          else roundTo 1 ((r.impressions : ℚ) /
            (((rows2.map (fun r2 => r2.impressions)).sum : Int) : ℚ) * 100)) := by
    intro rows2 urns2
    have hsum : ((sortByImpressionsDesc rows2).map (fun r => r.impressions)).sum =
        (rows2.map (fun r => r.impressions)).sum :=
      ((sortByImpressionsDesc_perm rows2).map (fun r => r.impressions)).sum_eq
    rw [show topDemographics rows2 urns2 10 =
      ((sortByImpressionsDesc rows2).take 10).map
        (mkSegSnap urns2
          (((sortByImpressionsDesc rows2).map (fun r => r.impressions)).sum))
      from rfl, hsum, List.map_map]
    rfl
  refine ⟨hform rows urns, ?_, ?_, ?_⟩
  rotate_right
  · -- concrete 11-row instance
    have hs11 : sortByImpressionsDesc fixDemoRows11 = fixDemoRows11 := by decide
    have hT11 : (fixDemoRows11.map (fun r => r.impressions)).sum = 2000 := by decide
    have h50 : roundTo 1 (50 : ℚ) = 50 := by
      rw [roundTo_exact 1 _ 500 (by norm_num)]
      norm_num
    have h5 : roundTo 1 (5 : ℚ) = 5 := by
      rw [roundTo_exact 1 _ 50 (by norm_num)]
      norm_num
    have hconc : (topDemographics fixDemoRows11 [] 10).map
        (fun s => s.share_of_impressions) =
        [50, 5, 5, 5, 5, 5, 5, 5, 5, 5] := by
      rw [hform fixDemoRows11 [], hs11, hT11]
      simp only [fixDemoRows11, fixDemoRow, List.take, List.map]
      norm_num [h50, h5]
    refine ⟨by rw [hconc]; norm_num, by rw [hconc]; norm_num, by decide, by decide⟩
  all_goals
  · -- the two sum bounds
    by_cases hT : (rows.map (fun r2 => r2.impressions)).sum = 0
    · rw [hform rows urns]
      simp [hT]
      positivity
    · have hT0 : (0 : Int) ≤ (rows.map (fun r2 => r2.impressions)).sum := by
        apply List.sum_nonneg
        intro x hx
        rcases List.mem_map.mp hx with ⟨r, hr, rfl⟩
        exact hnn r hr
      have hTpos : (0 : Int) < (rows.map (fun r2 => r2.impressions)).sum := by
        omega
      have hTQ : (0 : ℚ) < (((rows.map (fun r2 => r2.impressions)).sum : Int) : ℚ) := by
        exact_mod_cast hTpos
      set T : ℚ := (((rows.map (fun r2 => r2.impressions)).sum : Int) : ℚ) with hTdef
      set kept : List DemoRawRow := (sortByImpressionsDesc rows).take 10 with hkept
      have hksub : ∀ y ∈ kept, y ∈ rows := by
        intro y hy
        exact (sortByImpressionsDesc_perm rows).mem_iff.mp
          (List.mem_of_mem_take hy)
      have hstep1 : ((topDemographics rows urns 10).map
          (fun s => s.share_of_impressions)).sum =
          (kept.map (fun r => roundTo 1 ((r.impressions : ℚ) / T * 100))).sum := by
        rw [hform rows urns]
        congr 1
        apply List.map_congr_left
        intro r _
        rw [if_neg hT]
      have hlenk : (topDemographics rows urns 10).length = kept.length := by
        rw [show topDemographics rows urns 10 =
          kept.map (mkSegSnap urns
            (((sortByImpressionsDesc rows).map (fun r => r.impressions)).sum))
          from rfl, List.length_map]
      have hpoint : ∀ r ∈ kept,
          roundTo 1 ((r.impressions : ℚ) / T * 100) ≤
            (r.impressions : ℚ) / T * 100 + 1 / 20 := by
        intro r _
        have h := roundTo_le_add 1 ((r.impressions : ℚ) / T * 100)
        have h20 : (1 : ℚ) / (2 * 10 ^ 1) = 1 / 20 := by norm_num
        rw [h20] at h
        exact h
      have hsum1 : (kept.map (fun r => roundTo 1 ((r.impressions : ℚ) / T * 100))).sum ≤
          (kept.map (fun r => (r.impressions : ℚ) / T * 100 + 1 / 20)).sum :=
        List.sum_le_sum hpoint
      have hsum2 : (kept.map (fun r => (r.impressions : ℚ) / T * 100 + 1 / 20)).sum =
          (kept.map (fun r => (r.impressions : ℚ) / T * 100)).sum +
            kept.length * (1 / 20) :=
        sum_map_add_const _ _ kept
      have hexact : (kept.map (fun r => (r.impressions : ℚ) / T * 100)).sum ≤ 100 := by
        have hrw : (kept.map (fun r => (r.impressions : ℚ) / T * 100)).sum =
            (kept.map (fun r => (r.impressions : ℚ))).sum * (100 / T) := by
          rw [← List.sum_map_mul_right]
          congr 1
          apply List.map_congr_left
          intro r _
          field_simp
        have hcast : (kept.map (fun r => (r.impressions : ℚ))).sum =
            (((kept.map (fun r => r.impressions)).sum : Int) : ℚ) := by
          rw [Int.cast_list_sum, List.map_map]
          rfl
        have hkle : (kept.map (fun r => r.impressions)).sum ≤
            (rows.map (fun r2 => r2.impressions)).sum := by
          have hsplit : (kept.map (fun r => r.impressions)).sum +
              (((sortByImpressionsDesc rows).drop 10).map
                (fun r => r.impressions)).sum =
              (rows.map (fun r2 => r2.impressions)).sum := by
            rw [← List.sum_append, ← List.map_append, List.take_append_drop]
            exact ((sortByImpressionsDesc_perm rows).map
              (fun r => r.impressions)).sum_eq
          have hdnn : (0 : Int) ≤
              (((sortByImpressionsDesc rows).drop 10).map
                (fun r => r.impressions)).sum := by
            apply List.sum_nonneg
            intro x hx
            rcases List.mem_map.mp hx with ⟨r, hr, rfl⟩
            exact hnn r ((sortByImpressionsDesc_perm rows).mem_iff.mp
              (List.mem_of_mem_drop hr))
          omega
        rw [hrw, hcast]
        have hkleQ : (((kept.map (fun r => r.impressions)).sum : Int) : ℚ) ≤ T := by
          rw [hTdef]
          exact_mod_cast hkle
        have h100T : (0 : ℚ) ≤ 100 / T := by positivity
        calc (((kept.map (fun r => r.impressions)).sum : Int) : ℚ) * (100 / T) ≤
              T * (100 / T) := mul_le_mul_of_nonneg_right hkleQ h100T
          _ = 100 := by field_simp
      rw [hstep1]
      have hfinal : (kept.map (fun r =>
          roundTo 1 ((r.impressions : ℚ) / T * 100))).sum ≤
          100 + kept.length * (1 / 20) := by
        calc (kept.map (fun r => roundTo 1 ((r.impressions : ℚ) / T * 100))).sum ≤
              (kept.map (fun r => (r.impressions : ℚ) / T * 100 + 1 / 20)).sum :=
            hsum1
          _ = (kept.map (fun r => (r.impressions : ℚ) / T * 100)).sum +
              kept.length * (1 / 20) := hsum2
          _ ≤ 100 + kept.length * (1 / 20) := by linarith
      first
      | (rw [hlenk]; exact hfinal)
      | ( -- the absolute bound: kept has at most 10 elements
         have hk10 : kept.length ≤ 10 := by
           rw [hkept]
           exact List.length_take_le 10 _
         have hk10Q : (kept.length : ℚ) ≤ 10 := by exact_mod_cast hk10
         have : (kept.length : ℚ) * (1 / 20) ≤ 1 / 2 := by linarith
         linarith)

/-- Witness for `share_of_impressions_spec` at the six-row fixture (all
impressions nonneg by `decide`). -/
theorem share_of_impressions_spec_witness :
    (∀ r ∈ fixDemoRows6, 0 ≤ r.impressions) ∧
    ((topDemographics fixDemoRows6 [] 10).map
        (fun s => s.share_of_impressions)).sum ≤
      100 + ((topDemographics fixDemoRows6 [] 10).length : ℚ) * (1 / 20) :=
  ⟨by decide, (share_of_impressions_spec fixDemoRows6 [] (by decide)).2.1⟩

/-- C10 counterexample: with six segments of one impression each, every
share rounds 16.666... up to 16.7 and the retained shares sum to 100.2,
strictly more than 100 — refuting the claim that the shares always sum to
at most 100. -/
theorem share_sum_can_exceed_100 :
    ((topDemographics fixDemoRows6 [] 10).map
        (fun s => s.share_of_impressions)).sum = 501 / 5 ∧
    ¬ (((topDemographics fixDemoRows6 [] 10).map
        (fun s => s.share_of_impressions)).sum ≤ 100) := by
  have hs6 : sortByImpressionsDesc fixDemoRows6 = fixDemoRows6 := by decide
  have hT6 : (fixDemoRows6.map (fun r => r.impressions)).sum = 6 := by decide
  have hfl : ⌊(500 : ℚ) / 3⌋ = 166 := by
    rw [show (166 : ℤ) = ((166 : ℤ) : ℤ) from rfl]
    rw [Int.floor_eq_iff]
    constructor <;> norm_num
  have hshare : roundTo 1 ((1 : ℚ) / 6 * 100) = 167 / 10 := by
    unfold roundTo rhe
    rw [show (1 : ℚ) / 6 * 100 * 10 ^ 1 = 500 / 3 from by norm_num, hfl]
    norm_num
  have hform6 : (topDemographics fixDemoRows6 [] 10).map
      (fun s => s.share_of_impressions) =
      (fixDemoRows6.map (fun r =>
        roundTo 1 ((r.impressions : ℚ) / ((6 : Int) : ℚ) * 100))) := by
    rw [show topDemographics fixDemoRows6 [] 10 =
      ((sortByImpressionsDesc fixDemoRows6).take 10).map
        (mkSegSnap []
          (((sortByImpressionsDesc fixDemoRows6).map (fun r => r.impressions)).sum))
      from rfl, hs6, hT6]
    rw [show fixDemoRows6.take 10 = fixDemoRows6 from by decide, List.map_map]
    apply List.map_congr_left
    intro r hr
    have hall : ∀ x ∈ fixDemoRows6, x.impressions = 1 := by decide
    have himp : r.impressions = 1 := hall r hr
    simp [mkSegSnap, Function.comp_def, himp]
  have hsum : (topDemographics fixDemoRows6 [] 10).map
      (fun s => s.share_of_impressions) =
      [167 / 10, 167 / 10, 167 / 10, 167 / 10, 167 / 10, 167 / 10] := by
    rw [hform6]
    have hone : ∀ r ∈ fixDemoRows6,
        roundTo 1 ((r.impressions : ℚ) / ((6 : Int) : ℚ) * 100) = 167 / 10 := by
      intro r hr
      have hall : ∀ x ∈ fixDemoRows6, x.impressions = 1 := by decide
      rw [hall r hr]
      rw [show ((1 : Int) : ℚ) / ((6 : Int) : ℚ) * 100 = (1 : ℚ) / 6 * 100 from by
        norm_num]
      exact hshare
    rw [show fixDemoRows6 = [fixDemoRow "c1" 1, fixDemoRow "c2" 1, fixDemoRow "c3" 1,
      fixDemoRow "c4" 1, fixDemoRow "c5" 1, fixDemoRow "c6" 1] from rfl]
    simp only [List.map]
    rw [hone _ (by decide), hone _ (by decide), hone _ (by decide),
      hone _ (by decide), hone _ (by decide), hone _ (by decide)]
  constructor
  · rw [hsum]
    norm_num
  · rw [hsum]
    norm_num

end LinkedInAds
